import Mathlib

/-!
Shallow embedding of `export-gerencial.py` (Zabbix host report exporter).

The Python program fetches items, triggers, active problems and recent
events for one host and renders them as JSON (`salvar_json`), a styled
HTML document (`gerar_html`) and an Excel workbook (`gerar_excel`),
after computing summary statistics (`gerar_estatisticas`).

Records coming from the Zabbix API are Python dicts whose values are
strings; field access uses `d.get(key, default)` (absent key -> default)
or `d[key]` (absent key -> KeyError).  We model a record as a structure
of `Option String` fields (`none` = key absent), and fallible rendering
steps return `Except String _` where `.error` corresponds to a raised
Python exception.
-/

namespace Zbx

deriving instance DecidableEq for Except

/-- ASCII whitespace stripped by Python `int(str)`. -/
def isPySpace (c : Char) : Bool :=
  c = ' ' ∨ c = '\t' ∨ c = '\n' ∨ c = '\r'

/-- Decimal digit run to a natural number. -/
def digitsToNat (cs : List Char) : Nat :=
  cs.foldl (fun acc c => acc * 10 + (c.toNat - 48)) 0

/-- Model of Python `int(s)` applied to a string: optional surrounding
whitespace, optional sign, then a nonempty run of decimal digits;
anything else raises `ValueError` (modelled as `none`). -/
def pyInt (s : String) : Option Int :=
  let cs := ((s.toList.dropWhile isPySpace).reverse.dropWhile isPySpace).reverse
  match cs with
  | [] => none
  | c :: rest =>
    let sd : Int × List Char :=
      if c = '-' then (-1, rest) else if c = '+' then (1, rest) else (1, c :: rest)
    if sd.2 ≠ [] ∧ sd.2.all Char.isDigit then some (sd.1 * digitsToNat sd.2) else none

/-- Model of Python `str.lower()` (ASCII case folding, which covers all
strings the script compares). -/
def pyLower (s : String) : String :=
  String.mk (s.data.map Char.toLower)

/-- Python truthiness of an optional string (`None` and `""` are falsy). -/
def truthyStr (v : Option String) : Bool :=
  match v with
  | none => false
  | some s => s ≠ ""

/-- Python truthiness of an optional list (`None` and `[]` are falsy). -/
def truthyList (v : Option (List α)) : Bool :=
  match v with
  | none => false
  | some l => !l.isEmpty

/-- `ITEM_TYPES` table from the script. -/
def ITEM_TYPES : List (String × String) :=
  [("0", "Zabbix agent"), ("2", "Zabbix trapper"), ("3", "Simple check"),
   ("5", "Zabbix internal"), ("7", "Zabbix agent (active)"), ("9", "Web item"),
   ("10", "External check"), ("11", "Database monitor"), ("12", "IPMI agent"),
   ("13", "SSH agent"), ("14", "Telnet agent"), ("15", "Calculated"),
   ("16", "JMX agent"), ("17", "SNMP trap"), ("18", "Dependent item"),
   ("19", "HTTP agent"), ("20", "SNMP agent"), ("21", "Script")]

/-- `VALUE_TYPES` table from the script. -/
def VALUE_TYPES : List (String × String) :=
  [("0", "Numérico (float)"), ("1", "Caractere"), ("2", "Log"),
   ("3", "Numérico (inteiro)"), ("4", "Texto")]

/-- `TRIGGER_PRIORITIES` table from the script: code -> (label, color). -/
def TRIGGER_PRIORITIES : List (String × String × String) :=
  [("0", "Não classificada", "#97AAB3"), ("1", "Informação", "#7499FF"),
   ("2", "Aviso", "#FFC859"), ("3", "Média", "#FFA059"),
   ("4", "Alta", "#E97659"), ("5", "Desastre", "#E45959")]

/-- `STATUS_MAP` table from the script: code -> (label, color). -/
def STATUS_MAP : List (String × String × String) :=
  [("0", "Ativo", "#4CAF50"), ("1", "Desabilitado", "#F44336")]

/-- Model of `TABLE.get(key, default)` on a `(key, value)` table. -/
def dictGet (table : List (String × α)) (key : Option String) (default : α) : α :=
  match key with
  | none => default
  | some k => (table.lookup k).getD default

/-- A `{tag, value}` sub-record (`selectTags=["tag", "value"]`). -/
structure Tag where
  tag : Option String
  value : Option String
deriving DecidableEq

/-- A preprocessing sub-record of an item. -/
structure Preproc where
  type : Option String
  params : Option String
  error_handler : Option String
  error_handler_params : Option String
deriving DecidableEq

/-- An item record as fetched by `exportar_itens`. -/
structure Item where
  itemid : Option String := none
  name : Option String := none
  key_ : Option String := none
  type : Option String := none
  value_type : Option String := none
  delay : Option String := none
  history : Option String := none
  trends : Option String := none
  status : Option String := none
  description : Option String := none
  units : Option String := none
  params : Option String := none
  formula : Option String := none
  logtimefmt : Option String := none
  preprocessing : Option (List Preproc) := none
  tags : Option (List Tag) := none
deriving DecidableEq

/-- A trigger dependency sub-record. -/
structure Dep where
  triggerid : Option String
  description : Option String
deriving DecidableEq

/-- A trigger record as fetched by `exportar_triggers`. -/
structure Trigger where
  triggerid : Option String := none
  description : Option String := none
  expression : Option String := none
  recovery_expression : Option String := none
  priority : Option String := none
  status : Option String := none
  type : Option String := none
  recovery_mode : Option String := none
  correlation_mode : Option String := none
  correlation_tag : Option String := none
  manual_close : Option String := none
  comments : Option String := none
  url : Option String := none
  dependencies : Option (List Dep) := none
  tags : Option (List Tag) := none
deriving DecidableEq

/-- A problem record as fetched by `exportar_problemas`. -/
structure Problem where
  eventid : Option String := none
  objectid : Option String := none
  clock : Option String := none
  name : Option String := none
  severity : Option String := none
  acknowledged : Option String := none
  r_eventid : Option String := none
  r_clock : Option String := none
deriving DecidableEq

/-- An event record as fetched by `exportar_eventos`. -/
structure Event where
  eventid : Option String := none
  clock : Option String := none
  name : Option String := none
  severity : Option String := none
  acknowledged : Option String := none
  r_eventid : Option String := none
deriving DecidableEq

/-- The host record built in `main` (these keys are always present). -/
structure Host where
  hostid : String
  host : String
  name : String
deriving DecidableEq

/-- The `export_info` block built in `main`. -/
structure ExportInfo where
  data_exportacao : String
  zabbix_url : String
  zabbix_version : String
deriving DecidableEq

/-- The `export_data` dict assembled in `main` and consumed by every
renderer (the renderers read the record lists with
`export_data.get(key, [])`, hence the `Option`s). -/
structure ExportData where
  export_info : ExportInfo
  host : Host
  itens : Option (List Item) := none
  triggers : Option (List Trigger) := none
  problems : Option (List Problem) := none
  events : Option (List Event) := none
deriving DecidableEq

/-! ## Counter model

`collections.Counter(it)` iterates `it`, counting occurrences; its items
are kept in first-encounter (dict insertion) order, and
`most_common(k)` is a *stable* sort of those items by count descending,
truncated to `k`.  We model the item list of the counter by
`counter` below, and `most_common` as a merge sort of the
position-annotated item list under the total order
"count descending, position (= first-encounter order) ascending",
which is exactly what CPython's stable sort produces. -/

/-- Fuel-indexed helper for `firstOccs` (structural recursion on the
fuel, which starts at the list length and never runs out because
filtering only shortens the list). -/
def firstOccsF : Nat → List String → List String
  | _, [] => []
  | 0, _ :: _ => []
  | fuel + 1, x :: xs => x :: firstOccsF fuel (xs.filter (fun y => y != x))

/-- The keys of a list in first-occurrence order, each key once. -/
def firstOccs (l : List String) : List String :=
  firstOccsF l.length l

/-- The item list of `collections.Counter(l)`: keys in first-encounter
order with their multiplicities. -/
def counter (l : List String) : List (String × Nat) :=
  (firstOccs l).map (fun k => (k, l.count k))

/-- Comparator for `most_common`: count descending, original counter
position ascending (the tie order a stable sort preserves). -/
def mcLe (a b : Nat × (String × Nat)) : Prop :=
  b.2.2 < a.2.2 ∨ (a.2.2 = b.2.2 ∧ a.1 ≤ b.1)

instance mcLe.instDecidableRel : DecidableRel mcLe :=
  fun _ _ => inferInstanceAs (Decidable (_ ∨ _))

/-- `Counter.most_common()` (no argument): all items, count descending,
ties in insertion order.  CPython implements this as a stable sort by
count descending; sorting the position-annotated items by the total
order `mcLe` (count descending, position ascending) produces exactly
that list, and the structurally recursive `insertionSort` computes it. -/
def mostCommonAll (c : List (String × Nat)) : List (String × Nat) :=
  (c.enum.insertionSort mcLe).map Prod.snd

/-- `Counter.most_common(k)`. -/
def mostCommon (c : List (String × Nat)) (k : Nat) : List (String × Nat) :=
  (mostCommonAll c).take k

/-! ## Statistics aggregator (`gerar_estatisticas`) -/

/-- The `stats["itens"]` dict. -/
structure ItemStats where
  total : Nat
  ativos : Nat
  desabilitados : Nat
  por_tipo : List (String × Nat)
  por_valor : List (String × Nat)
  com_preprocessing : Nat
  com_tags : Nat
deriving DecidableEq

/-- The `stats["triggers"]` dict. -/
structure TriggerStats where
  total : Nat
  ativas : Nat
  desabilitadas : Nat
  por_prioridade : List (String × Nat)
  com_dependencias : Nat
  com_tags : Nat
deriving DecidableEq

/-- The `stats` dict. -/
structure Stats where
  itens : ItemStats
  triggers : TriggerStats
deriving DecidableEq

/-- `ITEM_TYPES.get(i.get("type"), "Desconhecido")`. -/
def itemTipoLabelStats (i : Item) : String :=
  dictGet ITEM_TYPES i.type "Desconhecido"

/-- `VALUE_TYPES.get(i.get("value_type"), "Desconhecido")`. -/
def itemValorLabelStats (i : Item) : String :=
  dictGet VALUE_TYPES i.value_type "Desconhecido"

/-- `gerar_estatisticas(itens, triggers)`. -/
def gerar_estatisticas (itens : List Item) (triggers : List Trigger) : Stats :=
  { itens :=
      { total := itens.length
        ativos := itens.countP (fun i => i.status == some "0")
        desabilitados := itens.countP (fun i => i.status == some "1")
        por_tipo := counter (itens.map itemTipoLabelStats)
        por_valor := counter (itens.map itemValorLabelStats)
        com_preprocessing := itens.countP (fun i => truthyList i.preprocessing)
        com_tags := itens.countP (fun i => truthyList i.tags) }
    triggers :=
      { total := triggers.length
        ativas := triggers.countP (fun t => t.status == some "0")
        desabilitadas := triggers.countP (fun t => t.status == some "1")
        por_prioridade := counter (triggers.map (fun t => t.priority.getD "0"))
        com_dependencias := triggers.countP (fun t => truthyList t.dependencies)
        com_tags := triggers.countP (fun t => truthyList t.tags) } }

/-! ## Sorting (`itens_sorted`, `triggers_sorted`)

Python's `sorted(xs, key=f)` computes every key up front (raising there
if a key computation raises) and then stable-sorts by the key under the
key type's total order. -/

/-- Sort key of `itens_sorted`: `x.get("name", "").lower()`. -/
def itemSortKey (i : Item) : String :=
  pyLower (i.name.getD "")

/-- The item ordering of `itens_sorted` (ascending sort key). -/
def itemLe (a b : Item) : Prop :=
  itemSortKey a ≤ itemSortKey b

instance itemLe.instDecidableRel : DecidableRel itemLe :=
  fun a b => decidable_of_iff ((itemSortKey a).toList ≤ (itemSortKey b).toList)
    String.le_iff_toList_le.symm

/-- `sorted(itens, key=lambda x: x.get("name", "").lower())` (Python's
stable sort; any sort agreeing with the total preorder on keys is
extensionally the same up to ties, and ties keep list order here). -/
def sortItens (itens : List Item) : List Item :=
  itens.insertionSort itemLe

/-- Sort key of `triggers_sorted`:
`(-int(x.get("priority", "0")), x.get("description", "").lower())`;
`int(...)` raises `ValueError` on a non-numeric priority string. -/
def triggerSortKey (t : Trigger) : Option (Int × String) :=
  (pyInt (t.priority.getD "0")).map
    (fun p => (-p, pyLower (t.description.getD "")))

/-- Lexicographic order on the trigger sort keys (Python tuple `<=`). -/
def trigKeyLe (a b : Int × String) : Prop :=
  a.1 < b.1 ∨ (a.1 = b.1 ∧ a.2 ≤ b.2)

instance trigKeyLe.instDecidableRel : DecidableRel trigKeyLe :=
  fun a b => decidable_of_iff (a.1 < b.1 ∨ (a.1 = b.1 ∧ a.2.toList ≤ b.2.toList))
    (by unfold trigKeyLe; rw [String.le_iff_toList_le])

/-- The keyed-trigger ordering used by `triggers_sorted`. -/
def keyedTrigLe (a b : (Int × String) × Trigger) : Prop :=
  trigKeyLe a.1 b.1

instance keyedTrigLe.instDecidableRel : DecidableRel keyedTrigLe :=
  fun _ _ => inferInstanceAs (Decidable (trigKeyLe _ _))

instance itemLe.instIsTotal : IsTotal Item itemLe :=
  ⟨fun a b => le_total (itemSortKey a) (itemSortKey b)⟩

instance itemLe.instIsTrans : IsTrans Item itemLe :=
  ⟨fun _ _ _ h1 h2 => le_trans h1 h2⟩

instance keyedTrigLe.instIsTotal : IsTotal ((Int × String) × Trigger) keyedTrigLe := by
  constructor
  intro a b
  unfold keyedTrigLe trigKeyLe
  rcases lt_trichotomy a.1.1 b.1.1 with h | h | h
  · exact .inl (.inl h)
  · rcases le_total a.1.2 b.1.2 with h2 | h2
    · exact .inl (.inr ⟨h, h2⟩)
    · exact .inr (.inr ⟨h.symm, h2⟩)
  · exact .inr (.inl h)

instance keyedTrigLe.instIsTrans : IsTrans ((Int × String) × Trigger) keyedTrigLe := by
  constructor
  intro a b c h1 h2
  unfold keyedTrigLe trigKeyLe at *
  rcases h1 with h1 | ⟨h1, h1'⟩ <;> rcases h2 with h2 | ⟨h2, h2'⟩
  · exact .inl (lt_trans h1 h2)
  · exact .inl (h2 ▸ h1)
  · exact .inl (h1 ▸ h2)
  · exact .inr ⟨h1.trans h2, le_trans h1' h2'⟩

instance mcLe.instIsTotal : IsTotal (Nat × (String × Nat)) mcLe := by
  constructor
  intro a b
  unfold mcLe
  omega

instance mcLe.instIsTrans : IsTrans (Nat × (String × Nat)) mcLe := by
  constructor
  intro a b c h1 h2
  unfold mcLe at *
  omega

/-- Sequencing of a fallible function over a list, mirroring a Python
loop that may raise at any element. -/
def mapE (f : α → Except String β) : List α → Except String (List β)
  | [] => .ok []
  | x :: xs =>
    match f x with
    | .error e => .error e
    | .ok y =>
      match mapE f xs with
      | .error e => .error e
      | .ok ys => .ok (y :: ys)

/-- `sorted(triggers, key=lambda x: (-int(x.get("priority", "0")),
x.get("description", "").lower()))`; raises on unparsable priority. -/
def sortTriggers (triggers : List Trigger) : Except String (List Trigger) :=
  match mapE (fun t =>
      match triggerSortKey t with
      | none => .error "ValueError: invalid literal for int() with base 10 (trigger priority)"
      | some k => .ok (k, t)) triggers with
  | .error e => .error e
  | .ok keyed => .ok ((keyed.insertionSort keyedTrigLe).map Prod.snd)

/-! ## Duration and percentage formatting -/

/-- The duration string computed from `duracao_seg` in `gerar_html` /
`gerar_excel` (Python `//` and `%` are floor division and modulo). -/
def formatDuracao (duracao_seg : Int) : String :=
  let dias := duracao_seg.fdiv 86400
  let horas := (duracao_seg.fmod 86400).fdiv 3600
  let minutos := (duracao_seg.fmod 3600).fdiv 60
  if dias > 0 then s!"{dias}d {horas}h {minutos}m"
  else if horas > 0 then s!"{horas}h {minutos}m"
  else s!"{minutos}m"

/-- Round the fraction `num / den` to the nearest natural number, ties
to even — the rounding applied when formatting the value with `:.1f`. -/
def roundHalfEvenFrac (num den : Nat) : Nat :=
  let q := num / den
  let r := num % den
  if 2 * r < den then q
  else if den < 2 * r then q + 1
  else if q % 2 = 0 then q else q + 1

/-- Model of `f"{num / den:.1f}"` for a nonnegative exact fraction:
one-decimal fixed-point rendering with round-half-to-even (the script
formats `count / total * 100`; we read that computation exactly). -/
def fmt1Frac (num den : Nat) : String :=
  let t := roundHalfEvenFrac (num * 10) den
  s!"{t / 10}.{t % 10}"

/-! ## The styled-document renderer (`gerar_html`)

We embed the renderer as the structured content it interpolates into
the HTML template: per-row derived values, chart bars, the active-alert
table body and the optional frequency section.  `Except.error`
corresponds to a Python exception escaping `gerar_html`. -/

/-- `STATUS_MAP.get(rec.get("status", "0"), ("Desconhecido", "#888"))`. -/
def statusInfoHtml (status : Option String) : String × String :=
  (STATUS_MAP.lookup (status.getD "0")).getD ("Desconhecido", "#888")

/-- `TRIGGER_PRIORITIES.get(code, ("Desconhecido", "#888"))`. -/
def priorityInfo (code : String) : String × String :=
  (TRIGGER_PRIORITIES.lookup code).getD ("Desconhecido", "#888")

/-- One iteration of the HTML tag loop: raises `KeyError` when a tag
record lacks its `"tag"` key; the `:value` suffix is appended only when
`tag.get('value')` is truthy. -/
def renderTagHtml (t : Tag) : Except String String :=
  match t.tag with
  | none => .error "KeyError: tag"
  | some tg =>
    let tag_value := if truthyStr t.value then ":" ++ t.value.getD "" else ""
    .ok ("<span class=\"tag\">" ++ tg ++ tag_value ++ "</span>")

/-- The `tags_html or "-"` idiom. -/
def orDash (s : String) : String :=
  if s = "" then "-" else s

/-- One row of the items table in the HTML report. -/
structure ItemRowHtml where
  statusClass : String
  statusLabel : String
  nome : String
  chave : String
  tipo : String
  valorTipo : String
  intervalo : String
  historico : String
  tagsHtml : String
deriving DecidableEq

/-- The item-row loop body of `gerar_html`. -/
def renderItemRowHtml (i : Item) : Except String ItemRowHtml :=
  match mapE renderTagHtml (i.tags.getD []) with
  | .error e => .error e
  | .ok parts =>
    .ok { statusClass := if i.status = some "0" then "status-active" else "status-disabled"
          statusLabel := (statusInfoHtml i.status).1
          nome := i.name.getD ""
          chave := i.key_.getD ""
          tipo := dictGet ITEM_TYPES (some (i.type.getD "")) "Desconhecido"
          valorTipo := dictGet VALUE_TYPES (some (i.value_type.getD "")) "Desconhecido"
          intervalo := i.delay.getD "-"
          historico := i.history.getD "-"
          tagsHtml := orDash (String.join parts) }

/-- One row of the triggers table in the HTML report. -/
structure TriggerRowHtml where
  statusClass : String
  statusLabel : String
  prLabel : String
  prColor : String
  nome : String
  expressao : String
  comentarios : String
  tagsHtml : String
deriving DecidableEq

/-- The trigger-row loop body of `gerar_html`. -/
def renderTriggerRowHtml (t : Trigger) : Except String TriggerRowHtml :=
  match mapE renderTagHtml (t.tags.getD []) with
  | .error e => .error e
  | .ok parts =>
    let priority_info := priorityInfo (t.priority.getD "0")
    .ok { statusClass := if t.status = some "0" then "status-active" else "status-disabled"
          statusLabel := (statusInfoHtml t.status).1
          prLabel := priority_info.1
          prColor := priority_info.2
          nome := t.description.getD ""
          expressao := t.expression.getD ""
          comentarios := orDash (t.comments.getD "")
          tagsHtml := orDash (String.join parts) }

/-- One row of the active-alerts table: either a rendered problem or
the single `Nenhum alerta ativo no momento` placeholder row.  The
start-time column is kept as the raw epoch value (`none` when the clock
is falsy and a dash is shown); the wall-clock rendering of a nonzero
epoch by `datetime.fromtimestamp(...).strftime(...)` is a collaborator
detail not modelled further. -/
inductive AlertRowHtml where
  | data (sevLabel sevColor nome : String) (inicioClock : Option Int)
      (duracao reconhecido : String)
  | placeholder
deriving DecidableEq

/-- `int(problem.get("clock", 0))`: the absent-key default is the
integer `0`; a present value is a string fed to `int(...)`. -/
def problemClock (p : Problem) : Option Int :=
  match p.clock with
  | none => some 0
  | some s => pyInt s

/-- The problem-row loop body of `gerar_html` (and its duration
arithmetic). -/
def renderAlertRowHtml (now : Int) (p : Problem) : Except String AlertRowHtml :=
  match problemClock p with
  | none => .error "ValueError: invalid literal for int() with base 10 (problem clock)"
  | some clock =>
    let severity_info := priorityInfo (p.severity.getD "0")
    let duracao := if clock ≠ 0 then formatDuracao (now - clock) else "-"
    let ack := if p.acknowledged = some "1" then "Sim" else "Não"
    .ok (.data severity_info.1 severity_info.2 (p.name.getD "")
      (if clock ≠ 0 then some clock else none) duracao ack)

/-- One row of the top-20 frequency table.  `percentual` is the exact
value of `count / total_events * 100`; `pctStr` its `:.1f` rendering. -/
structure FreqRow where
  pos : Nat
  nome : String
  count : Nat
  percentual : ℚ
  pctStr : String
deriving DecidableEq

/-- The frequency-table rows: `Counter(names).most_common(20)` with
`enumerate(..., 1)` positions and percentages over `len(events)`. -/
def freqRows (events : List Event) : List FreqRow :=
  let names := events.map (fun e => e.name.getD "")
  let top_alerts := mostCommon (counter names) 20
  let total_events := events.length
  top_alerts.enum.map (fun pr =>
    { pos := pr.1 + 1
      nome := pr.2.1
      count := pr.2.2
      percentual := if 0 < total_events then (pr.2.2 : ℚ) / total_events * 100 else 0
      pctStr := if 0 < total_events then fmt1Frac (pr.2.2 * 100) total_events else "0.0" })

/-- One bar of the two distribution charts: its label, its count and
the rendered width `count / max * 100` (an exact reading of the float). -/
structure Bar where
  label : String
  count : Nat
  width : ℚ
deriving DecidableEq

/-- Python `max` over the counts of a bar-chart source (the script
guards the empty case with `... if ... else 1`). -/
def listMax (l : List Nat) : Nat :=
  l.foldl max 0

/-- The `Itens por Tipo de Coleta` chart: `most_common(8)` buckets,
widths relative to the maximum count among those buckets. -/
def tipoBarsOf (por_tipo : List (String × Nat)) : List Bar :=
  let top_tipos := mostCommon por_tipo 8
  let max_tipo := if top_tipos.isEmpty then 1 else listMax (top_tipos.map Prod.snd)
  top_tipos.map (fun pr =>
    { label := pr.1, count := pr.2, width := (pr.2 : ℚ) / max_tipo * 100 })

/-- The `Itens por Tipo de Valor` chart: every bucket (`most_common()`
with no cap), widths relative to the maximum count over all buckets. -/
def valorBarsOf (por_valor : List (String × Nat)) : List Bar :=
  let max_valor := if por_valor.isEmpty then 1 else listMax (por_valor.map Prod.snd)
  (mostCommonAll por_valor).map (fun pr =>
    { label := pr.1, count := pr.2, width := (pr.2 : ℚ) / max_valor * 100 })

/-- The `Triggers por Severidade` card: the six known codes from `"5"`
down to `"0"` with `por_prioridade.get(code, 0)`. -/
def sevBreakdownOf (por_prioridade : List (String × Nat)) : List (String × String × Nat) :=
  ["5", "4", "3", "2", "1", "0"].map (fun p =>
    let nc := priorityInfo p
    (nc.1, nc.2, (por_prioridade.lookup p).getD 0))

/-- The dynamic content of the rendered HTML document. -/
structure HtmlDoc where
  hostName : String
  hostTech : String
  hostId : String
  sevBreakdown : List (String × String × Nat)
  tipoBars : List Bar
  valorBars : List Bar
  itemRows : List ItemRowHtml
  triggerRows : List TriggerRowHtml
  alertRows : List AlertRowHtml
  freqSection : Option (List FreqRow)
deriving DecidableEq

/-- `gerar_html(export_data, stats, output_file)` (the written file's
dynamic content; `now` is `datetime.now().timestamp()`).  The match
chain mirrors the order in which the Python function evaluates the
fallible steps, so the surfaced error is the first exception raised. -/
def gerar_html (d : ExportData) (stats : Stats) (now : Int) : Except String HtmlDoc :=
  let itens := d.itens.getD []
  let triggers := d.triggers.getD []
  match sortTriggers triggers with
  | .error e => .error e
  | .ok triggers_sorted =>
    match mapE renderItemRowHtml (sortItens itens) with
    | .error e => .error e
    | .ok itemRows =>
      match mapE renderTriggerRowHtml triggers_sorted with
      | .error e => .error e
      | .ok triggerRows =>
        let problems := d.problems.getD []
        let events := d.events.getD []
        match (if problems.isEmpty then .ok [AlertRowHtml.placeholder]
               else mapE (renderAlertRowHtml now) problems : Except String _) with
        | .error e => .error e
        | .ok alertRows =>
          .ok { hostName := d.host.name
                hostTech := d.host.host
                hostId := d.host.hostid
                sevBreakdown := sevBreakdownOf stats.triggers.por_prioridade
                tipoBars := tipoBarsOf stats.itens.por_tipo
                valorBars := valorBarsOf stats.itens.por_valor
                itemRows := itemRows
                triggerRows := triggerRows
                alertRows := alertRows
                freqSection := if events.isEmpty then none else some (freqRows events) }

/-! ## The spreadsheet renderer (`gerar_excel`)

Embedded as the data rows written to the four record sheets (the
static summary sheet and all purely presentational styling — fonts,
fills, widths — are not content). -/

/-- One tag in the Excel tag join: `f"{t['tag']}:{t.get('value', '')}"
when `t.get('value')` is truthy, else `t['tag']`; raises `KeyError`
when the `"tag"` key is absent. -/
def excelTagStr (t : Tag) : Except String String :=
  match t.tag with
  | none => .error "KeyError: tag"
  | some tg => .ok (if truthyStr t.value then tg ++ ":" ++ t.value.getD "" else tg)

/-- One data row of the `Itens` sheet. -/
structure ItemRowXl where
  status : String
  nome : String
  chave : String
  tipo : String
  tipoValor : String
  intervalo : String
  historico : String
  tags : String
deriving DecidableEq

/-- The item-row loop body of `gerar_excel`.  Note the status label
here is `"Ativo" if item.get("status") == "0" else "Desabilitado"` —
not a `STATUS_MAP` lookup. -/
def renderItemRowXl (i : Item) : Except String ItemRowXl :=
  match mapE excelTagStr (i.tags.getD []) with
  | .error e => .error e
  | .ok parts =>
    .ok { status := if i.status = some "0" then "Ativo" else "Desabilitado"
          nome := i.name.getD ""
          chave := i.key_.getD ""
          tipo := dictGet ITEM_TYPES (some (i.type.getD "")) "Desconhecido"
          tipoValor := dictGet VALUE_TYPES (some (i.value_type.getD "")) "Desconhecido"
          intervalo := i.delay.getD "-"
          historico := i.history.getD "-"
          tags := orDash (String.intercalate ", " parts) }

/-- One data row of the `Triggers` sheet. -/
structure TriggerRowXl where
  status : String
  severidade : String
  nome : String
  expressao : String
  comentarios : String
  tags : String
deriving DecidableEq

/-- The trigger-row loop body of `gerar_excel`. -/
def renderTriggerRowXl (t : Trigger) : Except String TriggerRowXl :=
  match mapE excelTagStr (t.tags.getD []) with
  | .error e => .error e
  | .ok parts =>
    .ok { status := if t.status = some "0" then "Ativo" else "Desabilitado"
          severidade := (priorityInfo (t.priority.getD "0")).1
          nome := t.description.getD ""
          expressao := t.expression.getD ""
          comentarios := orDash (t.comments.getD "")
          tags := orDash (String.intercalate ", " parts) }

/-- One entry of the `Alertas Ativos` sheet: a data row, or the single
merged `Nenhum alerta ativo no momento` notice written when there are
no problems. -/
inductive AlertRowXl where
  | data (severidade problema : String) (inicioClock : Option Int)
      (duracao reconhecido : String)
  | notice
deriving DecidableEq

/-- The problem-row loop body of `gerar_excel` (same arithmetic as the
HTML renderer's). -/
def renderAlertRowXl (now : Int) (p : Problem) : Except String AlertRowXl :=
  match problemClock p with
  | none => .error "ValueError: invalid literal for int() with base 10 (problem clock)"
  | some clock =>
    let severity_name := (priorityInfo (p.severity.getD "0")).1
    let duracao := if clock ≠ 0 then formatDuracao (now - clock) else "-"
    let ack := if p.acknowledged = some "1" then "Sim" else "Não"
    .ok (.data severity_name (p.name.getD "")
      (if clock ≠ 0 then some clock else none) duracao ack)

/-- The data rows of the Excel workbook's record sheets.  `resumo` is
the statistics table of the `Resumo` sheet (`stats_data` in the
source), as `(categoria, metrica, valor)` rows. -/
structure ExcelDoc where
  resumo : List (String × String × Nat)
  itemRows : List ItemRowXl
  triggerRows : List TriggerRowXl
  alertRows : List AlertRowXl
  topSheet : Option (List FreqRow)
deriving DecidableEq

/-- `gerar_excel(export_data, stats, output_file)`.  The `Top 20
Alertas` sheet duplicates the HTML renderer's frequency computation
verbatim (`Counter`, `most_common(20)`, `len(events)` percentages), so
it reuses `freqRows`; the fallible steps appear in the sheet-writing
order of the source (items sheet before the trigger sort). -/
def gerar_excel (d : ExportData) (stats : Stats) (now : Int) : Except String ExcelDoc :=
  let itens := d.itens.getD []
  let triggers := d.triggers.getD []
  let problems := d.problems.getD []
  let events := d.events.getD []
  match mapE renderItemRowXl (sortItens itens) with
  | .error e => .error e
  | .ok itemRows =>
    match sortTriggers triggers with
    | .error e => .error e
    | .ok triggers_sorted =>
      match mapE renderTriggerRowXl triggers_sorted with
      | .error e => .error e
      | .ok triggerRows =>
        match (if problems.isEmpty then .ok [AlertRowXl.notice]
               else mapE (renderAlertRowXl now) problems : Except String _) with
        | .error e => .error e
        | .ok alertRows =>
          .ok { resumo :=
                  [("Itens", "Total", stats.itens.total),
                   ("", "Ativos", stats.itens.ativos),
                   ("", "Desabilitados", stats.itens.desabilitados),
                   ("", "Com Preprocessing", stats.itens.com_preprocessing),
                   ("", "Com Tags", stats.itens.com_tags),
                   ("Triggers", "Total", stats.triggers.total),
                   ("", "Ativas", stats.triggers.ativas),
                   ("", "Desabilitadas", stats.triggers.desabilitadas),
                   ("", "Com Dependências", stats.triggers.com_dependencias),
                   ("", "Com Tags", stats.triggers.com_tags),
                   ("Alertas", "Ativos", problems.length),
                   ("", "Histórico (últimos eventos)", events.length)]
                itemRows := itemRows
                triggerRows := triggerRows
                alertRows := alertRows
                topSheet := if events.isEmpty then none else some (freqRows events) }

/-- The derived fields of an HTML alert data row (none for the
placeholder). -/
def alertHtmlFields : AlertRowHtml → Option (String × String × Option Int × String × String)
  | .data sev _ nome clock dur ack => some (sev, nome, clock, dur, ack)
  | .placeholder => none

/-- The derived fields of an Excel alert data row (none for the
notice). -/
def alertXlFields : AlertRowXl → Option (String × String × Option Int × String × String)
  | .data sev nome clock dur ack => some (sev, nome, clock, dur, ack)
  | .notice => none

/-! ## The structured-data renderer (`salvar_json`)

`salvar_json` writes `json.dump(export_data, ...)`.  We model the JSON
document as a tree (`Json`): `json.dump` maps the Python object graph
onto this tree verbatim (dict -> object with keys in insertion order,
list -> array, str -> string; an absent dict key simply produces no
object member), and `json.load` inverts that mapping.  `encodeExport`
is the document `salvar_json` persists and `decodeExport` the re-parse
of that document into the in-memory record model. -/

/-- The JSON fragment the export uses: all leaves are strings. -/
inductive Json where
  | null
  | str (s : String)
  | arr (elems : List Json)
  | obj (fields : List (String × Json))

/-- An optional string field: an absent key contributes no member. -/
def optField (k : String) (v : Option String) : List (String × Json) :=
  match v with
  | none => []
  | some s => [(k, .str s)]

/-- An optional array-of-records field. -/
def optArrField (k : String) (v : Option (List α)) (enc : α → Json) :
    List (String × Json) :=
  match v with
  | none => []
  | some l => [(k, .arr (l.map enc))]

/-- Member lookup in a decoded object. -/
def getJ (fields : List (String × Json)) (k : String) : Option Json :=
  fields.lookup k

/-- Read back an optional string member. -/
def asStr (j : Option Json) : Option (Option String) :=
  match j with
  | none => some none
  | some (.str s) => some (some s)
  | _ => none

/-- Element-wise decoding of an array body. -/
def mapMO (dec : Json → Option α) : List Json → Option (List α)
  | [] => some []
  | j :: js =>
    match dec j with
    | none => none
    | some a =>
      match mapMO dec js with
      | none => none
      | some as => some (a :: as)

/-- Read back an optional array member, decoding each element. -/
def asArr (dec : Json → Option α) (j : Option Json) : Option (Option (List α)) :=
  match j with
  | none => some none
  | some (.arr js) => (mapMO dec js).map some
  | _ => none

def encodeTag (t : Tag) : Json :=
  .obj (optField "tag" t.tag ++ optField "value" t.value)

def decodeTag : Json → Option Tag
  | .obj l => do
    let tag ← asStr (getJ l "tag")
    let value ← asStr (getJ l "value")
    some { tag := tag, value := value }
  | _ => none

def encodePreproc (p : Preproc) : Json :=
  .obj (optField "type" p.type ++ optField "params" p.params ++
    optField "error_handler" p.error_handler ++
    optField "error_handler_params" p.error_handler_params)

def decodePreproc : Json → Option Preproc
  | .obj l => do
    let type ← asStr (getJ l "type")
    let params ← asStr (getJ l "params")
    let error_handler ← asStr (getJ l "error_handler")
    let error_handler_params ← asStr (getJ l "error_handler_params")
    some { type := type, params := params, error_handler := error_handler,
           error_handler_params := error_handler_params }
  | _ => none

def encodeItem (i : Item) : Json :=
  .obj (optField "itemid" i.itemid ++ optField "name" i.name ++
    optField "key_" i.key_ ++ optField "type" i.type ++
    optField "value_type" i.value_type ++ optField "delay" i.delay ++
    optField "history" i.history ++ optField "trends" i.trends ++
    optField "status" i.status ++ optField "description" i.description ++
    optField "units" i.units ++ optField "params" i.params ++
    optField "formula" i.formula ++ optField "logtimefmt" i.logtimefmt ++
    optArrField "preprocessing" i.preprocessing encodePreproc ++
    optArrField "tags" i.tags encodeTag)

def decodeItem : Json → Option Item
  | .obj l => do
    let itemid ← asStr (getJ l "itemid")
    let name ← asStr (getJ l "name")
    let key_ ← asStr (getJ l "key_")
    let type ← asStr (getJ l "type")
    let value_type ← asStr (getJ l "value_type")
    let delay ← asStr (getJ l "delay")
    let history ← asStr (getJ l "history")
    let trends ← asStr (getJ l "trends")
    let status ← asStr (getJ l "status")
    let description ← asStr (getJ l "description")
    let units ← asStr (getJ l "units")
    let params ← asStr (getJ l "params")
    let formula ← asStr (getJ l "formula")
    let logtimefmt ← asStr (getJ l "logtimefmt")
    let preprocessing ← asArr decodePreproc (getJ l "preprocessing")
    let tags ← asArr decodeTag (getJ l "tags")
    some { itemid := itemid, name := name, key_ := key_, type := type,
           value_type := value_type, delay := delay, history := history,
           trends := trends, status := status, description := description,
           units := units, params := params, formula := formula,
           logtimefmt := logtimefmt, preprocessing := preprocessing,
           tags := tags }
  | _ => none

def encodeDep (d : Dep) : Json :=
  .obj (optField "triggerid" d.triggerid ++ optField "description" d.description)

def decodeDep : Json → Option Dep
  | .obj l => do
    let triggerid ← asStr (getJ l "triggerid")
    let description ← asStr (getJ l "description")
    some { triggerid := triggerid, description := description }
  | _ => none

def encodeTrigger (t : Trigger) : Json :=
  .obj (optField "triggerid" t.triggerid ++ optField "description" t.description ++
    optField "expression" t.expression ++
    optField "recovery_expression" t.recovery_expression ++
    optField "priority" t.priority ++ optField "status" t.status ++
    optField "type" t.type ++ optField "recovery_mode" t.recovery_mode ++
    optField "correlation_mode" t.correlation_mode ++
    optField "correlation_tag" t.correlation_tag ++
    optField "manual_close" t.manual_close ++ optField "comments" t.comments ++
    optField "url" t.url ++ optArrField "dependencies" t.dependencies encodeDep ++
    optArrField "tags" t.tags encodeTag)

def decodeTrigger : Json → Option Trigger
  | .obj l => do
    let triggerid ← asStr (getJ l "triggerid")
    let description ← asStr (getJ l "description")
    let expression ← asStr (getJ l "expression")
    let recovery_expression ← asStr (getJ l "recovery_expression")
    let priority ← asStr (getJ l "priority")
    let status ← asStr (getJ l "status")
    let type ← asStr (getJ l "type")
    let recovery_mode ← asStr (getJ l "recovery_mode")
    let correlation_mode ← asStr (getJ l "correlation_mode")
    let correlation_tag ← asStr (getJ l "correlation_tag")
    let manual_close ← asStr (getJ l "manual_close")
    let comments ← asStr (getJ l "comments")
    let url ← asStr (getJ l "url")
    let dependencies ← asArr decodeDep (getJ l "dependencies")
    let tags ← asArr decodeTag (getJ l "tags")
    some { triggerid := triggerid, description := description,
           expression := expression, recovery_expression := recovery_expression,
           priority := priority, status := status, type := type,
           recovery_mode := recovery_mode, correlation_mode := correlation_mode,
           correlation_tag := correlation_tag, manual_close := manual_close,
           comments := comments, url := url, dependencies := dependencies,
           tags := tags }
  | _ => none

def encodeProblem (p : Problem) : Json :=
  .obj (optField "eventid" p.eventid ++ optField "objectid" p.objectid ++
    optField "clock" p.clock ++ optField "name" p.name ++
    optField "severity" p.severity ++ optField "acknowledged" p.acknowledged ++
    optField "r_eventid" p.r_eventid ++ optField "r_clock" p.r_clock)

def decodeProblem : Json → Option Problem
  | .obj l => do
    let eventid ← asStr (getJ l "eventid")
    let objectid ← asStr (getJ l "objectid")
    let clock ← asStr (getJ l "clock")
    let name ← asStr (getJ l "name")
    let severity ← asStr (getJ l "severity")
    let acknowledged ← asStr (getJ l "acknowledged")
    let r_eventid ← asStr (getJ l "r_eventid")
    let r_clock ← asStr (getJ l "r_clock")
    some { eventid := eventid, objectid := objectid, clock := clock,
           name := name, severity := severity, acknowledged := acknowledged,
           r_eventid := r_eventid, r_clock := r_clock }
  | _ => none

def encodeEvent (e : Event) : Json :=
  .obj (optField "eventid" e.eventid ++ optField "clock" e.clock ++
    optField "name" e.name ++ optField "severity" e.severity ++
    optField "acknowledged" e.acknowledged ++ optField "r_eventid" e.r_eventid)

def decodeEvent : Json → Option Event
  | .obj l => do
    let eventid ← asStr (getJ l "eventid")
    let clock ← asStr (getJ l "clock")
    let name ← asStr (getJ l "name")
    let severity ← asStr (getJ l "severity")
    let acknowledged ← asStr (getJ l "acknowledged")
    let r_eventid ← asStr (getJ l "r_eventid")
    some { eventid := eventid, clock := clock, name := name,
           severity := severity, acknowledged := acknowledged,
           r_eventid := r_eventid }
  | _ => none

def encodeHost (h : Host) : Json :=
  .obj [("hostid", .str h.hostid), ("host", .str h.host), ("name", .str h.name)]

def decodeHost : Json → Option Host
  | .obj l => do
    let hostid ← asStr (getJ l "hostid")
    let host ← asStr (getJ l "host")
    let name ← asStr (getJ l "name")
    match hostid, host, name with
    | some a, some b, some c => some { hostid := a, host := b, name := c }
    | _, _, _ => none
  | _ => none

def encodeInfo (i : ExportInfo) : Json :=
  .obj [("data_exportacao", .str i.data_exportacao),
        ("zabbix_url", .str i.zabbix_url),
        ("zabbix_version", .str i.zabbix_version)]

def decodeInfo : Json → Option ExportInfo
  | .obj l => do
    let de ← asStr (getJ l "data_exportacao")
    let zu ← asStr (getJ l "zabbix_url")
    let zv ← asStr (getJ l "zabbix_version")
    match de, zu, zv with
    | some a, some b, some c =>
      some { data_exportacao := a, zabbix_url := b, zabbix_version := c }
    | _, _, _ => none
  | _ => none

/-- The document `salvar_json(export_data, ...)` persists, with the
keys in the insertion order of `main`'s `export_data` dict. -/
def encodeExport (d : ExportData) : Json :=
  .obj ([("export_info", encodeInfo d.export_info), ("host", encodeHost d.host)] ++
    optArrField "itens" d.itens encodeItem ++
    optArrField "triggers" d.triggers encodeTrigger ++
    optArrField "problems" d.problems encodeProblem ++
    optArrField "events" d.events encodeEvent)

/-- Re-parse of the persisted document into the record model. -/
def decodeExport : Json → Option ExportData
  | .obj l => do
    let info ← getJ l "export_info"
    let info ← decodeInfo info
    let host ← getJ l "host"
    let host ← decodeHost host
    let itens ← asArr decodeItem (getJ l "itens")
    let triggers ← asArr decodeTrigger (getJ l "triggers")
    let problems ← asArr decodeProblem (getJ l "problems")
    let events ← asArr decodeEvent (getJ l "events")
    some { export_info := info, host := host, itens := itens,
           triggers := triggers, problems := problems, events := events }
  | _ => none

/-- The error component of a fallible result. -/
def errE : Except String α → Option String
  | .error e => some e
  | .ok _ => none

/-! ## Concrete sample data (used by witnesses and counterexamples) -/

/-- A resolved host as `main` builds it. -/
def hostEx : Host :=
  { hostid := "10084", host := "srv01", name := "Server 01" }

/-- An `export_info` block as `main` builds it. -/
def infoEx : ExportInfo :=
  { data_exportacao := "2025-01-01T00:00:00", zabbix_url := "http://localhost",
    zabbix_version := "7.0" }

/-- An `export_data` value as `main` assembles it. -/
def dataWith (itens : List Item) (triggers : List Trigger) (problems : List Problem)
    (events : List Event) : ExportData :=
  { export_info := infoEx, host := hostEx, itens := some itens,
    triggers := some triggers, problems := some problems, events := some events }

/-- The statistics value `main` passes to the renderers. -/
def statsOf (d : ExportData) : Stats :=
  gerar_estatisticas (d.itens.getD []) (d.triggers.getD [])

/-- A well-formed record set: every priority and clock parses, every
tag record has its `tag` key. -/
def dGood : ExportData :=
  dataWith
    [{ name := some "CPU load", status := some "0", type := some "0",
       value_type := some "0", delay := some "1m",
       tags := some [{ tag := some "env", value := some "prod" }] },
     { name := some "agent ping", status := some "1", type := some "7",
       value_type := some "3" }]
    [{ description := some "High CPU", priority := some "4", status := some "0",
       expression := some "last(cpu)>5",
       tags := some [{ tag := some "sev", value := none }] }]
    [{ name := some "High CPU", severity := some "4", clock := some "1700000000",
       acknowledged := some "1" }]
    [{ name := some "High CPU", severity := some "4", clock := some "1700000000" },
     { name := some "Disk full", severity := some "3", clock := some "1700000100" }]

/-- An export with no records at all. -/
def dEmpty : ExportData :=
  dataWith [] [] [] []

/-- The spec's frequency test vector `[A, A, B, C, C, C]` as events. -/
def eventsVec : List Event :=
  [{ name := some "A" }, { name := some "A" }, { name := some "B" },
   { name := some "C" }, { name := some "C" }, { name := some "C" }]

/-- An export whose only records are the frequency test vector. -/
def dEventsVec : ExportData :=
  dataWith [] [] [] eventsVec

/-- Items whose type counter is `Zabbix agent: 3, Zabbix trapper: 1`. -/
def chartItens : List Item :=
  [{ name := some "a", type := some "0" }, { name := some "b", type := some "0" },
   { name := some "c", type := some "0" }, { name := some "d", type := some "2" }]

/-- An export exercising both bar charts and the frequency table. -/
def dChart : ExportData :=
  dataWith chartItens [] [] eventsVec

/-- Nine items with nine distinct collection types. -/
def nineTypeItens : List Item :=
  [{ type := some "0" }, { type := some "2" }, { type := some "3" },
   { type := some "5" }, { type := some "7" }, { type := some "9" },
   { type := some "10" }, { type := some "11" }, { type := some "12" }]

/-- An export whose type counter has nine buckets. -/
def dNine : ExportData :=
  dataWith nineTypeItens [] [] []

/-- A single item whose status code `"2"` is outside the known status
table. -/
def dStatus2 : ExportData :=
  dataWith [{ name := some "i", status := some "2" }] [] [] []

/-- A record set whose only anomaly is a non-numeric trigger priority. -/
def dBadPriority : ExportData :=
  dataWith [] [{ description := some "t", priority := some "x" }] [] []

/-- A record set whose only anomaly is a tag record without its
`"tag"` key. -/
def dBadTag : ExportData :=
  dataWith [{ name := some "i", tags := some [{ tag := none, value := some "v" }] }]
    [] [] []

/-- A record set whose only anomaly is a non-numeric problem clock. -/
def dBadClock : ExportData :=
  dataWith [] [] [{ name := some "p", clock := some "now" }] []

/-! ## Infrastructure lemmas -/

theorem mapE_ok_forall2 {f : α → Except String β} :
    ∀ {xs : List α} {ys : List β}, mapE f xs = .ok ys →
      List.Forall₂ (fun x y => f x = .ok y) xs ys := by
  intro xs
  induction xs with
  | nil =>
    intro ys h
    simp only [mapE] at h
    cases h
    exact .nil
  | cons x xs ih =>
    intro ys h
    simp only [mapE] at h
    cases hfx : f x with
    | error e => rw [hfx] at h; cases h
    | ok y =>
      rw [hfx] at h
      cases hm : mapE f xs with
      | error e => rw [hm] at h; cases h
      | ok ys' =>
        rw [hm] at h
        cases h
        exact .cons hfx (ih hm)

theorem mapE_isOk {f : α → Except String β} :
    ∀ {xs : List α}, (∀ x ∈ xs, (f x).isOk) → (mapE f xs).isOk := by
  intro xs
  induction xs with
  | nil => intro _; rfl
  | cons x xs ih =>
    intro h
    have hx := h x (List.mem_cons_self x xs)
    simp only [mapE]
    cases hfx : f x with
    | error e => rw [hfx] at hx; cases hx
    | ok y =>
      have ht := ih (fun a ha => h a (List.mem_cons_of_mem x ha))
      cases hm : mapE f xs with
      | error e => rw [hm] at ht; cases ht
      | ok ys => rfl

theorem errE_mapE {f : α → Except String β} {g : α → Except String γ}
    (h : ∀ x, errE (f x) = errE (g x)) :
    ∀ l : List α, errE (mapE f l) = errE (mapE g l) := by
  intro l
  induction l with
  | nil => rfl
  | cons x xs ih =>
    simp only [mapE]
    cases hfx : f x with
    | error e =>
      have := h x
      rw [hfx] at this
      cases hgx : g x with
      | error e2 => rw [hgx] at this; cases this; rfl
      | ok y => rw [hgx] at this; cases this
    | ok y =>
      have := h x
      rw [hfx] at this
      cases hgx : g x with
      | error e2 => rw [hgx] at this; cases this
      | ok z =>
        cases hm : mapE f xs with
        | error e =>
          rw [hm] at ih
          cases hn : mapE g xs with
          | error e2 => rw [hn] at ih; cases ih; rfl
          | ok ys => rw [hn] at ih; cases ih
        | ok ys =>
          rw [hm] at ih
          cases hn : mapE g xs with
          | error e2 => rw [hn] at ih; cases ih
          | ok zs => rfl

theorem forall2_mem_right {T : α → β → Prop} :
    ∀ {xs : List α} {ys : List β}, List.Forall₂ T xs ys → ∀ y ∈ ys, ∃ x ∈ xs, T x y := by
  intro xs ys h
  induction h with
  | nil => intro y hy; cases hy
  | cons hT _ ih =>
    intro y hy
    rcases List.mem_cons.1 hy with rfl | hy
    · exact ⟨_, List.mem_cons_self _ _, hT⟩
    · obtain ⟨x, hx, hTx⟩ := ih y hy
      exact ⟨x, List.mem_cons_of_mem _ hx, hTx⟩

theorem forall2_pairwise {T : α → β → Prop} {R : α → α → Prop} {S : β → β → Prop}
    (himp : ∀ a b a' b', T a a' → T b b' → R a b → S a' b') :
    ∀ {xs : List α} {ys : List β}, List.Forall₂ T xs ys → xs.Pairwise R → ys.Pairwise S := by
  intro xs ys h
  induction h with
  | nil => intro _; exact .nil
  | @cons x y xs ys hT htail ih =>
    intro hp
    rcases List.pairwise_cons.1 hp with ⟨hx, hxs⟩
    refine List.pairwise_cons.2 ⟨?_, ih hxs⟩
    intro y' hy'
    obtain ⟨x', hx', hTx'⟩ := forall2_mem_right htail y' hy'
    exact himp x x' y y' hT hTx' (hx x' hx')

theorem forall2_map_eq {T : α → β → Prop} {f : β → α}
    (hf : ∀ a b, T a b → f b = a) :
    ∀ {xs : List α} {ys : List β}, List.Forall₂ T xs ys → ys.map f = xs := by
  intro xs ys h
  induction h with
  | nil => rfl
  | cons hT _ ih => simp [ih, hf _ _ hT]

theorem firstOccsF_congr : ∀ {f1 f2 : Nat} {l : List String},
    l.length ≤ f1 → l.length ≤ f2 → firstOccsF f1 l = firstOccsF f2 l := by
  intro f1
  induction f1 with
  | zero =>
    intro f2 l h1 h2
    cases l with
    | nil => cases f2 <;> rfl
    | cons x xs => simp at h1
  | succ f ih =>
    intro f2 l h1 h2
    cases l with
    | nil => cases f2 <;> rfl
    | cons x xs =>
      cases f2 with
      | zero => simp at h2
      | succ f2' =>
        simp only [firstOccsF, List.cons.injEq, true_and]
        apply ih
        · exact le_trans (List.length_filter_le _ _) (Nat.le_of_succ_le_succ h1)
        · exact le_trans (List.length_filter_le _ _) (Nat.le_of_succ_le_succ h2)

theorem firstOccs_nil : firstOccs [] = [] := rfl

theorem firstOccs_cons (x : String) (xs : List String) :
    firstOccs (x :: xs) = x :: firstOccs (xs.filter (fun y => y != x)) := by
  rw [firstOccs, firstOccs]
  simp only [List.length_cons, firstOccsF, List.cons.injEq, true_and]
  exact firstOccsF_congr (List.length_filter_le _ _) (le_refl _)

/-- Recursion principle matching the shape of `firstOccs`. -/
theorem firstOccs_induction (motive : List String → Prop) (h0 : motive [])
    (h1 : ∀ x xs, motive (xs.filter (fun y => y != x)) → motive (x :: xs)) :
    ∀ l, motive l := by
  have key : ∀ (n : Nat) (l : List String), l.length ≤ n → motive l := by
    intro n
    induction n with
    | zero =>
      intro l h
      cases l with
      | nil => exact h0
      | cons x xs => simp at h
    | succ n ih =>
      intro l h
      cases l with
      | nil => exact h0
      | cons x xs =>
        refine h1 x xs (ih _ ?_)
        simp only [List.length_cons] at h
        exact le_trans (List.length_filter_le _ _) (Nat.le_of_succ_le_succ h)
  exact fun l => key l.length l (le_refl _)

theorem mem_firstOccs : ∀ {l : List String} {a : String}, a ∈ firstOccs l ↔ a ∈ l := by
  intro l
  induction l using firstOccs_induction with
  | h0 => intro a; rw [firstOccs_nil]
  | h1 x xs ih =>
    intro a
    rw [firstOccs_cons]
    simp only [List.mem_cons, ih, List.mem_filter, bne_iff_ne]
    constructor
    · rintro (rfl | ⟨h, _⟩)
      · exact .inl rfl
      · exact .inr h
    · rintro (rfl | h)
      · exact .inl rfl
      · by_cases hax : a = x
        · exact .inl hax
        · exact .inr ⟨h, hax⟩

theorem nodup_firstOccs : ∀ {l : List String}, (firstOccs l).Nodup := by
  intro l
  induction l using firstOccs_induction with
  | h0 => rw [firstOccs_nil]; exact .nil
  | h1 x xs ih =>
    rw [firstOccs_cons]
    refine List.nodup_cons.2 ⟨?_, ih⟩
    intro hx
    have := (List.mem_filter.1 (mem_firstOccs.1 hx)).2
    simp at this

theorem indexOf_filter_lt {p : String → Bool} :
    ∀ {l : List String} {a b : String}, a ∈ l.filter p → b ∈ l.filter p →
      List.indexOf a (l.filter p) < List.indexOf b (l.filter p) →
      List.indexOf a l < List.indexOf b l := by
  intro l
  induction l with
  | nil => intro a b ha; simp at ha
  | cons y ys ih =>
    intro a b ha hb hlt
    by_cases hpy : p y
    · rw [List.filter_cons_of_pos hpy] at ha hb hlt
      by_cases hay : a = y
      · subst hay
        have hba : b ≠ a := by
          rintro rfl
          rw [List.indexOf_cons_self] at hlt
          exact absurd hlt (by omega)
        rw [List.indexOf_cons_self, List.indexOf_cons_ne ys (fun h => hba h.symm)]
        exact Nat.succ_pos _
      · by_cases hby : b = y
        · subst hby
          rw [List.indexOf_cons_self, List.indexOf_cons_ne _ (fun h => hay h.symm)] at hlt
          exact absurd hlt (by omega)
        · rw [List.indexOf_cons_ne _ (fun h => hay h.symm),
            List.indexOf_cons_ne _ (fun h => hby h.symm)] at hlt
          have ha' : a ∈ ys.filter p := by
            rcases List.mem_cons.1 ha with rfl | h
            · exact absurd rfl hay
            · exact h
          have hb' : b ∈ ys.filter p := by
            rcases List.mem_cons.1 hb with rfl | h
            · exact absurd rfl hby
            · exact h
          rw [List.indexOf_cons_ne _ (fun h => hay h.symm),
            List.indexOf_cons_ne _ (fun h => hby h.symm)]
          exact Nat.succ_lt_succ (ih ha' hb' (Nat.lt_of_succ_lt_succ hlt))
    · rw [List.filter_cons_of_neg hpy] at ha hb hlt
      have hay : a ≠ y := by
        rintro rfl
        exact hpy (List.mem_filter.1 ha).2
      have hby : b ≠ y := by
        rintro rfl
        exact hpy (List.mem_filter.1 hb).2
      rw [List.indexOf_cons_ne _ (fun h => hay h.symm),
        List.indexOf_cons_ne _ (fun h => hby h.symm)]
      exact Nat.succ_lt_succ (ih ha hb hlt)

/-- The keys of `firstOccs l` appear in order of first occurrence in
`l`. -/
theorem pairwise_indexOf_firstOccs :
    ∀ l : List String, (firstOccs l).Pairwise (fun a b => List.indexOf a l < List.indexOf b l) := by
  intro l
  induction l using firstOccs_induction with
  | h0 => rw [firstOccs_nil]; exact .nil
  | h1 x xs ih =>
    rw [firstOccs_cons]
    refine List.pairwise_cons.2 ⟨?_, ?_⟩
    · intro b hb
      have hbf := mem_firstOccs.1 hb
      have hbx : b ≠ x := by
        have := (List.mem_filter.1 hbf).2
        simpa using this
      rw [List.indexOf_cons_self, List.indexOf_cons_ne xs (fun h => hbx h.symm)]
      exact Nat.succ_pos _
    · refine List.Pairwise.imp_of_mem ?_ ih
      intro a b ha hb hlt
      have haf := mem_firstOccs.1 ha
      have hbf := mem_firstOccs.1 hb
      have hax : a ≠ x := by have := (List.mem_filter.1 haf).2; simpa using this
      have hbx : b ≠ x := by have := (List.mem_filter.1 hbf).2; simpa using this
      rw [List.indexOf_cons_ne xs (fun h => hax h.symm),
        List.indexOf_cons_ne xs (fun h => hbx h.symm)]
      exact Nat.succ_lt_succ (indexOf_filter_lt haf hbf hlt)

theorem counter_keys (l : List String) : (counter l).map Prod.fst = firstOccs l := by
  unfold counter
  rw [List.map_map]
  have h : (Prod.fst ∘ fun k => (k, List.count k l)) = id := rfl
  rw [h, List.map_id]

theorem counter_keys_nodup (l : List String) : ((counter l).map Prod.fst).Nodup := by
  rw [counter_keys]
  exact nodup_firstOccs

theorem mem_counter {l : List String} {p : String × Nat} (h : p ∈ counter l) :
    p.2 = l.count p.1 ∧ p.1 ∈ l ∧ 1 ≤ p.2 := by
  obtain ⟨k, hk, rfl⟩ := List.mem_map.1 h
  have hmem : k ∈ l := mem_firstOccs.1 hk
  exact ⟨rfl, hmem, List.count_pos_iff.2 hmem⟩

theorem counter_pairwise_indexOf (l : List String) :
    (counter l).Pairwise (fun p q => List.indexOf p.1 l < List.indexOf q.1 l) := by
  rw [counter]
  exact List.pairwise_map.2 (pairwise_indexOf_firstOccs l)

theorem mostCommonAll_perm (c : List (String × Nat)) : (mostCommonAll c).Perm c := by
  have h1 : (c.enum.insertionSort mcLe).Perm c.enum := List.perm_insertionSort _ _
  have h2 := h1.map Prod.snd
  rw [List.enum_map_snd] at h2
  exact h2

/-- `most_common` on a real counter is ordered by count descending,
with ties in first-encounter order of the underlying name list. -/
theorem mostCommonAll_counter_pairwise (names : List String) :
    (mostCommonAll (counter names)).Pairwise
      (fun a b => b.2 < a.2 ∨ (a.2 = b.2 ∧ List.indexOf a.1 names ≤ List.indexOf b.1 names)) := by
  set c := counter names with hc
  set s := c.enum.insertionSort mcLe with hs
  have hsorted : s.Pairwise mcLe := List.sorted_insertionSort mcLe c.enum
  have hperm : s.Perm c.enum := List.perm_insertionSort _ _
  have hfst : (s.map Prod.fst).Nodup := by
    have hp := hperm.map Prod.fst
    rw [List.enum_map_fst] at hp
    exact hp.nodup_iff.2 (List.nodup_range _)
  have hne : s.Pairwise (fun a b => a.1 ≠ b.1) := List.pairwise_map.1 hfst
  have hcp := counter_pairwise_indexOf names
  rw [List.pairwise_iff_get] at hcp
  rw [mostCommonAll]
  refine List.pairwise_map.2 ?_
  refine List.Pairwise.imp_of_mem ?_ (hsorted.and hne)
  intro a b ha hb hab
  rcases hab with ⟨hle, hne1⟩
  rcases hle with hlt | ⟨heq, hidx⟩
  · exact .inl hlt
  · refine .inr ⟨heq, ?_⟩
    have hia := List.mem_enum (hperm.subset ha)
    have hib := List.mem_enum (hperm.subset hb)
    have hij : a.1 < b.1 := lt_of_le_of_ne hidx hne1
    have := hcp ⟨a.1, hia.1⟩ ⟨b.1, hib.1⟩ hij
    simp only [List.get_eq_getElem] at this
    rw [← hia.2, ← hib.2] at this
    exact le_of_lt this

theorem mostCommon_counter_pairwise (names : List String) (k : Nat) :
    (mostCommon (counter names) k).Pairwise
      (fun a b => b.2 < a.2 ∨ (a.2 = b.2 ∧ List.indexOf a.1 names ≤ List.indexOf b.1 names)) :=
  List.Pairwise.sublist (List.take_sublist _ _) (mostCommonAll_counter_pairwise names)

theorem mostCommon_counter_mem {names : List String} {k : Nat} {p : String × Nat}
    (h : p ∈ mostCommon (counter names) k) :
    p.2 = names.count p.1 ∧ p.1 ∈ names ∧ 1 ≤ p.2 :=
  mem_counter ((mostCommonAll_perm _).subset ((List.take_sublist _ _).subset h))

theorem mostCommon_length_le (c : List (String × Nat)) (k : Nat) :
    (mostCommon c k).length ≤ k := by
  rw [mostCommon, List.length_take]
  exact min_le_left _ _

theorem mostCommonAll_labels_perm (c : List (String × Nat)) :
    ((mostCommonAll c).map Prod.fst).Perm (c.map Prod.fst) :=
  (mostCommonAll_perm c).map Prod.fst

theorem mostCommon_labels_nodup (names : List String) (k : Nat) :
    ((mostCommon (counter names) k).map Prod.fst).Nodup := by
  have hall : ((mostCommonAll (counter names)).map Prod.fst).Nodup :=
    (mostCommonAll_labels_perm (counter names)).nodup_iff.2 (counter_keys_nodup names)
  have hsub : List.Sublist ((mostCommon (counter names) k).map Prod.fst)
      ((mostCommonAll (counter names)).map Prod.fst) :=
    (List.take_sublist _ _).map Prod.fst
  exact List.Nodup.sublist hsub hall

/-- When the counter has more than `k` buckets, some bucket label is
missing from `most_common(k)`. -/
theorem mostCommon_missing_label (names : List String) (k : Nat)
    (h : k < (counter names).length) :
    ∃ lab ∈ (counter names).map Prod.fst,
      lab ∉ (mostCommon (counter names) k).map Prod.fst := by
  by_contra hcon
  push_neg at hcon
  have hsub : (counter names).map Prod.fst ⊆ (mostCommon (counter names) k).map Prod.fst :=
    fun lab hl => hcon lab hl
  have hlen := (List.subperm_of_subset (counter_keys_nodup names) hsub).length_le
  rw [List.length_map, List.length_map, mostCommon, List.length_take] at hlen
  have hlenAll : (mostCommonAll (counter names)).length = (counter names).length :=
    (mostCommonAll_perm _).length_eq
  omega

/-- Destructuring of a successful `gerar_html` run into its pipeline
steps and document fields. -/
theorem gerar_html_ok_elim {d : ExportData} {stats : Stats} {now : Int} {doc : HtmlDoc}
    (h : gerar_html d stats now = .ok doc) :
    ∃ ts irows trows arows,
      sortTriggers (d.triggers.getD []) = .ok ts ∧
      mapE renderItemRowHtml (sortItens (d.itens.getD [])) = .ok irows ∧
      mapE renderTriggerRowHtml ts = .ok trows ∧
      (if (d.problems.getD []).isEmpty then Except.ok [AlertRowHtml.placeholder]
        else mapE (renderAlertRowHtml now) (d.problems.getD [])) = .ok arows ∧
      doc = { hostName := d.host.name, hostTech := d.host.host, hostId := d.host.hostid,
              sevBreakdown := sevBreakdownOf stats.triggers.por_prioridade,
              tipoBars := tipoBarsOf stats.itens.por_tipo,
              valorBars := valorBarsOf stats.itens.por_valor,
              itemRows := irows, triggerRows := trows, alertRows := arows,
              freqSection := if (d.events.getD []).isEmpty then none
                else some (freqRows (d.events.getD [])) } := by
  cases h1 : sortTriggers (d.triggers.getD []) with
  | error e => simp only [gerar_html, h1] at h; cases h
  | ok ts =>
    cases h2 : mapE renderItemRowHtml (sortItens (d.itens.getD [])) with
    | error e => simp only [gerar_html, h1, h2] at h; cases h
    | ok irows =>
      cases h3 : mapE renderTriggerRowHtml ts with
      | error e => simp only [gerar_html, h1, h2, h3] at h; cases h
      | ok trows =>
        cases h4 : (if (d.problems.getD []).isEmpty then Except.ok [AlertRowHtml.placeholder]
            else mapE (renderAlertRowHtml now) (d.problems.getD []) :
              Except String (List AlertRowHtml)) with
        | error e => simp only [gerar_html, h1, h2, h3, h4] at h; cases h
        | ok arows =>
          simp only [gerar_html, h1, h2, h3, h4] at h
          cases h
          exact ⟨ts, irows, trows, arows, rfl, rfl, h3, rfl, rfl⟩

/-- Destructuring of a successful `gerar_excel` run. -/
theorem gerar_excel_ok_elim {d : ExportData} {stats : Stats} {now : Int} {xdoc : ExcelDoc}
    (h : gerar_excel d stats now = .ok xdoc) :
    ∃ irows ts trows arows,
      mapE renderItemRowXl (sortItens (d.itens.getD [])) = .ok irows ∧
      sortTriggers (d.triggers.getD []) = .ok ts ∧
      mapE renderTriggerRowXl ts = .ok trows ∧
      (if (d.problems.getD []).isEmpty then Except.ok [AlertRowXl.notice]
        else mapE (renderAlertRowXl now) (d.problems.getD [])) = .ok arows ∧
      xdoc.itemRows = irows ∧ xdoc.triggerRows = trows ∧ xdoc.alertRows = arows ∧
      xdoc.topSheet = (if (d.events.getD []).isEmpty then none
        else some (freqRows (d.events.getD []))) := by
  cases h1 : mapE renderItemRowXl (sortItens (d.itens.getD [])) with
  | error e => simp only [gerar_excel, h1] at h; cases h
  | ok irows =>
    cases h2 : sortTriggers (d.triggers.getD []) with
    | error e => simp only [gerar_excel, h1, h2] at h; cases h
    | ok ts =>
      cases h3 : mapE renderTriggerRowXl ts with
      | error e => simp only [gerar_excel, h1, h2, h3] at h; cases h
      | ok trows =>
        cases h4 : (if (d.problems.getD []).isEmpty then Except.ok [AlertRowXl.notice]
            else mapE (renderAlertRowXl now) (d.problems.getD []) :
              Except String (List AlertRowXl)) with
        | error e => simp only [gerar_excel, h1, h2, h3, h4] at h; cases h
        | ok arows =>
          simp only [gerar_excel, h1, h2, h3, h4] at h
          cases h
          exact ⟨irows, ts, trows, arows, rfl, rfl, h3, rfl, rfl, rfl, rfl, rfl⟩

theorem renderAlertRowHtml_ne_placeholder (now : Int) (p : Problem) :
    renderAlertRowHtml now p ≠ .ok AlertRowHtml.placeholder := by
  cases hc : problemClock p with
  | none => rw [renderAlertRowHtml, hc]; intro h; cases h
  | some clock => rw [renderAlertRowHtml, hc]; intro h; cases h

theorem renderAlertRowXl_ne_notice (now : Int) (p : Problem) :
    renderAlertRowXl now p ≠ .ok AlertRowXl.notice := by
  cases hc : problemClock p with
  | none => rw [renderAlertRowXl, hc]; intro h; cases h
  | some clock => rw [renderAlertRowXl, hc]; intro h; cases h

theorem except_isOk_iff (e : Except String α) : e.isOk = true ↔ ∃ a, e = .ok a := by
  cases e <;> simp [Except.isOk, Except.toBool]

theorem sortTriggers_ok_of (ts : List Trigger)
    (h : ∀ t ∈ ts, (pyInt (t.priority.getD "0")).isSome) :
    ∃ out, sortTriggers ts = .ok out ∧ out.Perm ts := by
  have hm : (mapE (fun t =>
      match triggerSortKey t with
      | none => Except.error
          "ValueError: invalid literal for int() with base 10 (trigger priority)"
      | some k => Except.ok (k, t)) ts).isOk = true := by
    apply mapE_isOk
    intro t ht
    cases hk : triggerSortKey t with
    | none =>
      exfalso
      have hs := h t ht
      rw [triggerSortKey, Option.map_eq_none'] at hk
      rw [hk] at hs
      simp at hs
    | some k => rfl
  obtain ⟨keyed, hkeyed⟩ := (except_isOk_iff _).1 hm
  refine ⟨_, by rw [sortTriggers, hkeyed], ?_⟩
  have hf2 := mapE_ok_forall2 hkeyed
  have hperm : ((keyed.insertionSort keyedTrigLe).map Prod.snd).Perm
      (keyed.map Prod.snd) := (List.perm_insertionSort _ _).map _
  have hsnd : keyed.map Prod.snd = ts := by
    refine forall2_map_eq ?_ hf2
    intro t kt hkt
    cases htk : triggerSortKey t with
    | none => rw [htk] at hkt; cases hkt
    | some k => rw [htk] at hkt; cases hkt; rfl
  rw [hsnd] at hperm
  exact hperm

theorem renderTagHtml_isOk (tg : Tag) (h : tg.tag.isSome) : (renderTagHtml tg).isOk = true := by
  cases ht : tg.tag with
  | none => rw [ht] at h; cases h
  | some s => rw [renderTagHtml, ht]; rfl

theorem excelTagStr_isOk (tg : Tag) (h : tg.tag.isSome) : (excelTagStr tg).isOk = true := by
  cases ht : tg.tag with
  | none => rw [ht] at h; cases h
  | some s => rw [excelTagStr, ht]; rfl

theorem renderItemRowHtml_isOk (i : Item) (h : ∀ tg ∈ i.tags.getD [], tg.tag.isSome) :
    (renderItemRowHtml i).isOk = true := by
  have hm : (mapE renderTagHtml (i.tags.getD [])).isOk = true :=
    mapE_isOk (fun tg htg => renderTagHtml_isOk tg (h tg htg))
  obtain ⟨parts, hp⟩ := (except_isOk_iff _).1 hm
  rw [renderItemRowHtml, hp]
  rfl

theorem renderTriggerRowHtml_isOk (t : Trigger) (h : ∀ tg ∈ t.tags.getD [], tg.tag.isSome) :
    (renderTriggerRowHtml t).isOk = true := by
  have hm : (mapE renderTagHtml (t.tags.getD [])).isOk = true :=
    mapE_isOk (fun tg htg => renderTagHtml_isOk tg (h tg htg))
  obtain ⟨parts, hp⟩ := (except_isOk_iff _).1 hm
  rw [renderTriggerRowHtml, hp]
  rfl

theorem renderAlertRowHtml_isOk (now : Int) (p : Problem) (h : (problemClock p).isSome) :
    (renderAlertRowHtml now p).isOk = true := by
  cases hc : problemClock p with
  | none => rw [hc] at h; cases h
  | some clock => rw [renderAlertRowHtml, hc]; rfl

theorem getJ_cons (k k' : String) (j : Json) (l : List (String × Json)) :
    getJ ((k, j) :: l) k' = if k' = k then some j else getJ l k' := by
  by_cases h : k' = k
  · simp [getJ, List.lookup, h]
  · have hb : (k' == k) = false := beq_eq_false_iff_ne.2 h
    simp [getJ, List.lookup, hb, h]

theorem getJ_optField (k k' : String) (v : Option String) (l : List (String × Json)) :
    getJ (optField k v ++ l) k' =
      if k' = k then (v.map Json.str).or (getJ l k) else getJ l k' := by
  cases v with
  | none =>
    by_cases h : k' = k <;> simp [optField, h]
  | some s =>
    by_cases h : k' = k
    · simp [optField, getJ, List.lookup, h]
    · have hb : (k' == k) = false := beq_eq_false_iff_ne.2 h
      simp [optField, getJ, List.lookup, hb, h]

theorem getJ_optField_last (k k' : String) (v : Option String) :
    getJ (optField k v) k' = if k' = k then v.map Json.str else none := by
  have := getJ_optField k k' v []
  simpa [getJ] using this

theorem getJ_optArrField (k k' : String) (v : Option (List α)) (enc : α → Json)
    (l : List (String × Json)) :
    getJ (optArrField k v enc ++ l) k' =
      if k' = k then (v.map (fun xs => Json.arr (xs.map enc))).or (getJ l k)
      else getJ l k' := by
  cases v with
  | none =>
    by_cases h : k' = k <;> simp [optArrField, h]
  | some xs =>
    by_cases h : k' = k
    · simp [optArrField, getJ, List.lookup, h]
    · have hb : (k' == k) = false := beq_eq_false_iff_ne.2 h
      simp [optArrField, getJ, List.lookup, hb, h]

theorem getJ_optArrField_last (k k' : String) (v : Option (List α)) (enc : α → Json) :
    getJ (optArrField k v enc) k' =
      if k' = k then v.map (fun xs => Json.arr (xs.map enc)) else none := by
  have := getJ_optArrField k k' v enc []
  simpa [getJ] using this

theorem asStr_map_str (v : Option String) : asStr (v.map Json.str) = some v := by
  cases v <;> rfl

theorem mapM_decode {enc : α → Json} {dec : Json → Option α}
    (h : ∀ a, dec (enc a) = some a) :
    ∀ xs : List α, mapMO dec (xs.map enc) = some xs := by
  intro xs
  induction xs with
  | nil => rfl
  | cons x xs ih => simp [mapMO, h x, ih]

theorem asArr_map_arr {enc : α → Json} {dec : Json → Option α}
    (h : ∀ a, dec (enc a) = some a) (v : Option (List α)) :
    asArr dec (v.map (fun xs => Json.arr (xs.map enc))) = some v := by
  cases v with
  | none => rfl
  | some xs => simp [asArr, mapM_decode h]

theorem decodeTag_encodeTag (t : Tag) : decodeTag (encodeTag t) = some t := by
  simp [encodeTag, decodeTag, getJ_optField, getJ_optField_last, asStr_map_str]

theorem decodePreproc_encodePreproc (p : Preproc) :
    decodePreproc (encodePreproc p) = some p := by
  simp [encodePreproc, decodePreproc, getJ_optField, getJ_optField_last, asStr_map_str]

theorem decodeItem_encodeItem (i : Item) : decodeItem (encodeItem i) = some i := by
  simp [encodeItem, decodeItem, getJ_optField, getJ_optField_last, getJ_optArrField,
    getJ_optArrField_last, asStr_map_str, asArr_map_arr decodeTag_encodeTag,
    asArr_map_arr decodePreproc_encodePreproc]

theorem decodeDep_encodeDep (d : Dep) : decodeDep (encodeDep d) = some d := by
  simp [encodeDep, decodeDep, getJ_optField, getJ_optField_last, asStr_map_str]

theorem decodeTrigger_encodeTrigger (t : Trigger) :
    decodeTrigger (encodeTrigger t) = some t := by
  simp [encodeTrigger, decodeTrigger, getJ_optField, getJ_optField_last, getJ_optArrField,
    getJ_optArrField_last, asStr_map_str, asArr_map_arr decodeTag_encodeTag,
    asArr_map_arr decodeDep_encodeDep]

theorem decodeProblem_encodeProblem (p : Problem) :
    decodeProblem (encodeProblem p) = some p := by
  simp [encodeProblem, decodeProblem, getJ_optField, getJ_optField_last, asStr_map_str]

theorem decodeEvent_encodeEvent (e : Event) : decodeEvent (encodeEvent e) = some e := by
  simp [encodeEvent, decodeEvent, getJ_optField, getJ_optField_last, asStr_map_str]

theorem decodeHost_encodeHost (h : Host) : decodeHost (encodeHost h) = some h := by
  simp [encodeHost, decodeHost, getJ_cons, asStr]

theorem decodeInfo_encodeInfo (i : ExportInfo) : decodeInfo (encodeInfo i) = some i := by
  simp [encodeInfo, decodeInfo, getJ_cons, asStr]

theorem pairwise_enum_snd {R : α → α → Prop} {l : List α} (h : l.Pairwise R) :
    l.enum.Pairwise (fun a b => R a.2 b.2) := by
  rw [List.pairwise_iff_get] at h ⊢
  intro i j hij
  have hi : (i : Nat) < l.length := by
    have := i.isLt
    simpa [List.enum_length] using this
  have hj : (j : Nat) < l.length := by
    have := j.isLt
    simpa [List.enum_length] using this
  have hgi : l.enum.get i = ((i : Nat), l[(i : Nat)]) := by
    simp [List.getElem_enum]
  have hgj : l.enum.get j = ((j : Nat), l[(j : Nat)]) := by
    simp [List.getElem_enum]
  rw [hgi, hgj]
  exact h ⟨i, hi⟩ ⟨j, hj⟩ hij

/-- Specification of the frequency-table rows computed by both
renderers: the name/count pairs are exactly `most_common(20)` of the
name counter, counts are occurrence counts, percentages are the
one-decimal rendering of `count / total * 100`, and rows are ordered
by count descending with ties in first-encounter order. -/
theorem freqRows_spec (events : List Event) :
    (freqRows events).map (fun r => (r.nome, r.count)) =
      mostCommon (counter (events.map (fun e => e.name.getD ""))) 20 ∧
    (freqRows events).length ≤ 20 ∧
    (∀ r ∈ freqRows events,
      r.count = (events.map (fun e => e.name.getD "")).count r.nome ∧
      r.nome ∈ events.map (fun e => e.name.getD "") ∧
      1 ≤ r.count ∧
      r.pctStr = (if 0 < events.length then fmt1Frac (r.count * 100) events.length
        else "0.0") ∧
      r.percentual = (if 0 < events.length then (r.count : ℚ) / events.length * 100
        else 0)) ∧
    (freqRows events).Pairwise (fun r1 r2 => r2.count < r1.count ∨
      (r1.count = r2.count ∧
        List.indexOf r1.nome (events.map (fun e => e.name.getD "")) ≤
          List.indexOf r2.nome (events.map (fun e => e.name.getD "")))) := by
  refine ⟨?_, ?_, ?_, ?_⟩
  · rw [freqRows, List.map_map]
    exact List.enum_map_snd _
  · rw [freqRows, List.length_map, List.enum_length]
    exact mostCommon_length_le _ _
  · intro r hr
    rw [freqRows] at hr
    obtain ⟨pr, hpr, rfl⟩ := List.mem_map.1 hr
    have hmem : pr.2 ∈ mostCommon (counter (events.map (fun e => e.name.getD ""))) 20 := by
      have h2 := List.mem_enum hpr
      rw [h2.2]
      exact List.getElem_mem _
    obtain ⟨hcount, hname, hpos⟩ := mostCommon_counter_mem hmem
    exact ⟨hcount, hname, hpos, rfl, rfl⟩
  · rw [freqRows]
    refine List.pairwise_map.2 ?_
    have hp := mostCommon_counter_pairwise (events.map (fun e => e.name.getD "")) 20
    exact (pairwise_enum_snd hp).imp (fun hab => hab)

theorem foldl_max_init_le (l : List Nat) : ∀ a : Nat, a ≤ l.foldl max a := by
  induction l with
  | nil => intro a; exact le_refl a
  | cons x xs ih => intro a; exact le_trans (le_max_left a x) (ih (max a x))

theorem le_foldl_max : ∀ (l : List Nat) (a x : Nat), x ∈ l → x ≤ l.foldl max a := by
  intro l
  induction l with
  | nil => intro a x h; cases h
  | cons y ys ih =>
    intro a x h
    rcases List.mem_cons.1 h with rfl | h
    · exact le_trans (le_max_right a x) (foldl_max_init_le ys (max a x))
    · exact ih (max a y) x h

theorem le_listMax {l : List Nat} {x : Nat} (h : x ∈ l) : x ≤ listMax l :=
  le_foldl_max l 0 x h

theorem listMax_perm {l1 l2 : List Nat} (h : l1.Perm l2) : listMax l1 = listMax l2 :=
  h.foldl_eq 0

/-- Every bar of the items-by-type chart has its width scaled by the
maximum count among the displayed (top-8) buckets. -/
theorem tipoBars_spec {por_tipo : List (String × Nat)}
    (hpos : ∀ p ∈ mostCommon por_tipo 8, 1 ≤ p.2) :
    ∀ bar ∈ tipoBarsOf por_tipo,
      bar.width * (listMax ((tipoBarsOf por_tipo).map Bar.count) : ℚ) =
        (bar.count : ℚ) * 100 := by
  intro bar hbar
  have hcounts : (tipoBarsOf por_tipo).map Bar.count =
      (mostCommon por_tipo 8).map Prod.snd := by
    simp only [tipoBarsOf, List.map_map]
    rfl
  simp only [tipoBarsOf] at hbar
  obtain ⟨pr, hpr, rfl⟩ := List.mem_map.1 hbar
  have hne : (mostCommon por_tipo 8).isEmpty = false := by
    simp [List.isEmpty_iff, List.ne_nil_of_mem hpr]
  rw [hcounts]
  simp only [hne, Bool.false_eq_true, if_false]
  have hM : 1 ≤ listMax ((mostCommon por_tipo 8).map Prod.snd) :=
    le_trans (hpos pr hpr) (le_listMax (List.mem_map_of_mem Prod.snd hpr))
  have hM0 : (listMax ((mostCommon por_tipo 8).map Prod.snd) : ℚ) ≠ 0 := by
    have : listMax ((mostCommon por_tipo 8).map Prod.snd) ≠ 0 := by omega
    exact_mod_cast this
  field_simp

/-- Every bar of the items-by-value-type chart has its width scaled by
the maximum count over all buckets of that chart. -/
theorem valorBars_spec {por_valor : List (String × Nat)}
    (hpos : ∀ p ∈ por_valor, 1 ≤ p.2) :
    ∀ bar ∈ valorBarsOf por_valor,
      bar.width * (listMax ((valorBarsOf por_valor).map Bar.count) : ℚ) =
        (bar.count : ℚ) * 100 := by
  intro bar hbar
  have hcperm : ((valorBarsOf por_valor).map Bar.count).Perm (por_valor.map Prod.snd) := by
    have h1 : (valorBarsOf por_valor).map Bar.count =
        (mostCommonAll por_valor).map Prod.snd := by
      simp only [valorBarsOf, List.map_map]
      rfl
    rw [h1]
    exact (mostCommonAll_perm por_valor).map Prod.snd
  simp only [valorBarsOf] at hbar
  obtain ⟨pr, hpr, rfl⟩ := List.mem_map.1 hbar
  have hprv : pr ∈ por_valor := (mostCommonAll_perm por_valor).subset hpr
  have hne : por_valor.isEmpty = false := by
    simp [List.isEmpty_iff, List.ne_nil_of_mem hprv]
  rw [listMax_perm hcperm]
  simp only [hne, Bool.false_eq_true, if_false]
  have hM : 1 ≤ listMax (por_valor.map Prod.snd) :=
    le_trans (hpos pr hprv) (le_listMax (List.mem_map_of_mem Prod.snd hprv))
  have hM0 : (listMax (por_valor.map Prod.snd) : ℚ) ≠ 0 := by
    have : listMax (por_valor.map Prod.snd) ≠ 0 := by omega
    exact_mod_cast this
  field_simp

theorem errE_tag_renderers (tg : Tag) : errE (renderTagHtml tg) = errE (excelTagStr tg) := by
  cases ht : tg.tag with
  | none => rw [renderTagHtml, excelTagStr, ht]
  | some s => rw [renderTagHtml, excelTagStr, ht]; rfl

theorem errE_item_tagparts (l : List Tag) :
    errE (mapE renderTagHtml l) = errE (mapE excelTagStr l) :=
  errE_mapE errE_tag_renderers l

/-! ## Claim theorems -/

/-- C1 counterexample: the styled-document renderer *does* raise on
malformed record fields.  A non-numeric trigger priority string, a tag
record missing its `"tag"` key, and a non-numeric problem clock each
abort `gerar_html` with an exception instead of degrading to a
placeholder. -/
theorem C1_counterexample :
    gerar_html dBadPriority (statsOf dBadPriority) 0 =
      .error "ValueError: invalid literal for int() with base 10 (trigger priority)" ∧
    gerar_html dBadTag (statsOf dBadTag) 0 = .error "KeyError: tag" ∧
    gerar_html dBadClock (statsOf dBadClock) 0 =
      .error "ValueError: invalid literal for int() with base 10 (problem clock)" := by
  refine ⟨by decide, by decide, by decide⟩

/-- C1 as amended: absent record fields degrade to defaults, and the
renderer returns normally whenever every trigger priority parses as an
integer, every item/trigger tag record has its `"tag"` key, and every
problem clock parses as an integer; outside those conditions an
exception is raised (see the counterexample). -/
theorem C1_render_total (d : ExportData) (stats : Stats) (now : Int)
    (hpr : ∀ t ∈ d.triggers.getD [], (pyInt (t.priority.getD "0")).isSome)
    (hit : ∀ i ∈ d.itens.getD [], ∀ tg ∈ i.tags.getD [], tg.tag.isSome)
    (htt : ∀ t ∈ d.triggers.getD [], ∀ tg ∈ t.tags.getD [], tg.tag.isSome)
    (hpc : ∀ p ∈ d.problems.getD [], (problemClock p).isSome) :
    (gerar_html d stats now).isOk = true := by
  obtain ⟨ts, hts, htsperm⟩ := sortTriggers_ok_of (d.triggers.getD []) hpr
  have hirows : (mapE renderItemRowHtml (sortItens (d.itens.getD []))).isOk = true := by
    apply mapE_isOk
    intro i hi
    exact renderItemRowHtml_isOk i (hit i ((List.perm_insertionSort _ _).subset hi))
  obtain ⟨irows, hirows'⟩ := (except_isOk_iff _).1 hirows
  have htrows : (mapE renderTriggerRowHtml ts).isOk = true := by
    apply mapE_isOk
    intro t ht
    exact renderTriggerRowHtml_isOk t (htt t (htsperm.subset ht))
  obtain ⟨trows, htrows'⟩ := (except_isOk_iff _).1 htrows
  have harows : ((if (d.problems.getD []).isEmpty then .ok [AlertRowHtml.placeholder]
      else mapE (renderAlertRowHtml now) (d.problems.getD [])) :
        Except String (List AlertRowHtml)).isOk = true := by
    by_cases hp : (d.problems.getD []).isEmpty
    · rw [if_pos hp]; rfl
    · rw [if_neg hp]
      apply mapE_isOk
      intro p hmem
      exact renderAlertRowHtml_isOk now p (hpc p hmem)
  obtain ⟨arows, harows'⟩ := (except_isOk_iff _).1 harows
  simp only [gerar_html, hts, hirows', htrows', harows']
  rfl

/-- Witness for C1 (amended) at a well-formed concrete record set. -/
theorem C1_witness : (gerar_html dGood (statsOf dGood) 0).isOk = true :=
  C1_render_total dGood (statsOf dGood) 0 (by decide) (by decide) (by decide) (by decide)

/-- C8: serializing the fetched record set with the structured-data
renderer and re-parsing the output reproduces every host, item,
trigger, problem and event field value exactly. -/
theorem C8_json_round_trip (d : ExportData) : decodeExport (encodeExport d) = some d := by
  simp [encodeExport, decodeExport, getJ_cons, getJ_optArrField, getJ_optArrField_last,
    decodeInfo_encodeInfo, decodeHost_encodeHost,
    asArr_map_arr decodeItem_encodeItem, asArr_map_arr decodeTrigger_encodeTrigger,
    asArr_map_arr decodeProblem_encodeProblem, asArr_map_arr decodeEvent_encodeEvent]

/-- C2: items are listed sorted ascending by display name compared
case-insensitively, and triggers are listed sorted by numeric priority
code descending with ties broken by description ascending
case-insensitively, for every item list and every trigger list (the
trigger listing exists whenever the sort succeeds). -/
theorem C2_listing_order (itens : List Item) (triggers triggersS : List Trigger) :
    (sortItens itens).Perm itens ∧
    (sortItens itens).Pairwise
      (fun a b => pyLower (a.name.getD "") ≤ pyLower (b.name.getD "")) ∧
    (sortTriggers triggers = .ok triggersS →
      triggersS.Perm triggers ∧
      triggersS.Pairwise (fun a b => ∀ pa pb,
        pyInt (a.priority.getD "0") = some pa →
        pyInt (b.priority.getD "0") = some pb →
        pb < pa ∨ (pa = pb ∧ pyLower (a.description.getD "") ≤ pyLower (b.description.getD "")))) := by
  refine ⟨List.perm_insertionSort _ _, ?_, ?_⟩
  · have h := List.sorted_insertionSort itemLe itens
    exact h.imp (fun hab => hab)
  · intro h
    rw [sortTriggers] at h
    cases hm : mapE (fun t =>
        match triggerSortKey t with
        | none => Except.error
            "ValueError: invalid literal for int() with base 10 (trigger priority)"
        | some k => Except.ok (k, t)) triggers with
    | error e => rw [hm] at h; cases h
    | ok keyed =>
      rw [hm] at h
      cases h
      have hf2 := mapE_ok_forall2 hm
      have hT : ∀ (t : Trigger) (kt : (Int × String) × Trigger),
          (match triggerSortKey t with
            | none => Except.error
                "ValueError: invalid literal for int() with base 10 (trigger priority)"
            | some k => Except.ok (k, t)) = .ok kt →
          kt.2 = t ∧ triggerSortKey t = some kt.1 := by
        intro t kt hkt
        cases htk : triggerSortKey t with
        | none => rw [htk] at hkt; cases hkt
        | some k => rw [htk] at hkt; cases hkt; exact ⟨rfl, rfl⟩
      constructor
      · have hperm : ((keyed.insertionSort keyedTrigLe).map Prod.snd).Perm
            (keyed.map Prod.snd) := (List.perm_insertionSort _ _).map _
        rw [forall2_map_eq (fun t kt hkt => (hT t kt hkt).1) hf2] at hperm
        exact hperm
      · have hsorted : (keyed.insertionSort keyedTrigLe).Pairwise keyedTrigLe :=
          List.sorted_insertionSort keyedTrigLe keyed
        have hkeys : ∀ kt ∈ keyed.insertionSort keyedTrigLe,
            triggerSortKey kt.2 = some kt.1 := by
          intro kt hkt
          have hmem := (List.perm_insertionSort keyedTrigLe keyed).subset hkt
          obtain ⟨t, _, hTt⟩ := forall2_mem_right hf2 kt hmem
          obtain ⟨h2, h1⟩ := hT t kt hTt
          rw [h2]
          exact h1
        refine List.pairwise_map.2 ?_
        refine List.Pairwise.imp_of_mem ?_ hsorted
        intro a b ha hb hab
        intro pa pb hpa hpb
        have hka := hkeys a ha
        have hkb := hkeys b hb
        rw [triggerSortKey, hpa] at hka
        rw [triggerSortKey, hpb] at hkb
        have hka' : a.1 = (-pa, pyLower (a.2.description.getD "")) := by
          simpa using hka.symm
        have hkb' : b.1 = (-pb, pyLower (b.2.description.getD "")) := by
          simpa using hkb.symm
        rw [keyedTrigLe, hka', hkb'] at hab
        simp only [trigKeyLe] at hab
        rcases hab with h1 | ⟨h1, h2⟩
        · exact .inl (by omega)
        · exact .inr ⟨by omega, h2⟩

/-- Witness for C2 at a concrete input: a two-trigger list sorts
successfully, is a permutation of the input, and is ordered by the
descending-priority comparator. -/
theorem C2_witness :
    ∃ ts, sortTriggers [{ priority := some "3" }, { priority := some "5" }] = .ok ts ∧
      ts.Perm [{ priority := some "3" }, { priority := some "5" }] ∧
      ts.Pairwise (fun a b => ∀ pa pb,
        pyInt (a.priority.getD "0") = some pa →
        pyInt (b.priority.getD "0") = some pb →
        pb < pa ∨ (pa = pb ∧ pyLower (a.description.getD "") ≤ pyLower (b.description.getD ""))) := by
  obtain ⟨ts, hts⟩ : ∃ ts,
      sortTriggers [{ priority := some "3" }, { priority := some "5" }] = .ok ts :=
    ⟨_, rfl⟩
  obtain ⟨h1, h2⟩ :=
    (C2_listing_order [] [{ priority := some "3" }, { priority := some "5" }] ts).2.2 hts
  exact ⟨ts, hts, h1, h2⟩

/-- C3: for every item list, the aggregator's total count equals
active count plus disabled count plus the count of items whose status
is neither `"0"` nor `"1"` (or absent); in particular, when every
item's status is `"0"` or `"1"`, active + disabled = total, and an
item with any other status is counted in the total but in neither
bucket. -/
theorem C3_active_disabled_sum (itens : List Item) (triggers : List Trigger) :
    (gerar_estatisticas itens triggers).itens.total =
      (gerar_estatisticas itens triggers).itens.ativos +
        (gerar_estatisticas itens triggers).itens.desabilitados +
        itens.countP (fun i => !(i.status == some "0") && !(i.status == some "1")) ∧
    ((∀ i ∈ itens, i.status = some "0" ∨ i.status = some "1") →
      (gerar_estatisticas itens triggers).itens.ativos +
        (gerar_estatisticas itens triggers).itens.desabilitados =
        (gerar_estatisticas itens triggers).itens.total) := by
  have key : itens.length =
      itens.countP (fun i => i.status == some "0") +
        itens.countP (fun i => i.status == some "1") +
        itens.countP (fun i => !(i.status == some "0") && !(i.status == some "1")) := by
    induction itens with
    | nil => rfl
    | cons i is ih =>
      simp only [List.countP_cons, List.length_cons]
      by_cases h0 : i.status = some "0"
      · simp only [h0]
        simp
        omega
      · by_cases h1 : i.status = some "1"
        · simp only [h1]
          simp [h0]
          omega
        · simp [h0, h1]
          omega
  constructor
  · simpa [gerar_estatisticas] using key
  · intro hall
    have hz : itens.countP
        (fun i => !(i.status == some "0") && !(i.status == some "1")) = 0 := by
      rw [List.countP_eq_zero]
      intro i hi
      rcases hall i hi with h | h <;> simp [h]
    simp only [gerar_estatisticas]
    rw [hz] at key
    omega

/-- Witness for C3 at a concrete input: two items, one active and one
disabled, sum to the total of 2. -/
theorem C3_witness :
    (gerar_estatisticas [{ status := some "0" }, { status := some "1" }] []).itens.ativos +
      (gerar_estatisticas [{ status := some "0" }, { status := some "1" }] []).itens.desabilitados =
      (gerar_estatisticas [{ status := some "0" }, { status := some "1" }] []).itens.total :=
  (C3_active_disabled_sum [{ status := some "0" }, { status := some "1" }] []).2
    (by decide)

/-- C4: problem duration renders as days/hours/minutes, coarsest unit
first, omitting zero leading units (`0` seconds gives `"0m"`, `3600`
gives `"1h 0m"`, `90000` gives `"1d 1h 0m"`), and a missing or zero
start timestamp renders as the dash placeholder. -/
theorem C4_duration_format :
    formatDuracao 0 = "0m" ∧
    formatDuracao 3600 = "1h 0m" ∧
    formatDuracao 90000 = "1d 1h 0m" ∧
    (∀ (now : Int) (p : Problem), p.clock = none ∨ p.clock = some "0" →
      renderAlertRowHtml now p =
        .ok (.data (priorityInfo (p.severity.getD "0")).1
          (priorityInfo (p.severity.getD "0")).2 (p.name.getD "") none "-"
          (if p.acknowledged = some "1" then "Sim" else "Não"))) ∧
    (∀ dd hh mm : Int, 0 ≤ dd → 0 ≤ hh → hh < 24 → 0 ≤ mm → mm < 60 →
      formatDuracao (86400 * dd + 3600 * hh + 60 * mm) =
        if 0 < dd then s!"{dd}d {hh}h {mm}m"
        else if 0 < hh then s!"{hh}h {mm}m"
        else s!"{mm}m") := by
  refine ⟨by decide, by decide, by decide, ?_, ?_⟩
  · intro now p hc
    have hpc : problemClock p = some 0 := by
      rcases hc with h | h
      · rw [problemClock, h]
      · rw [problemClock, h]
        decide
    rw [renderAlertRowHtml, hpc]
    simp
  · intro dd hh mm h1 h2 h3 h4 h5
    have e1 : (86400 * dd + 3600 * hh + 60 * mm).fdiv 86400 = dd := by
      rw [Int.fdiv_eq_ediv _ (by norm_num)]
      omega
    have e2 : ((86400 * dd + 3600 * hh + 60 * mm).fmod 86400).fdiv 3600 = hh := by
      rw [Int.fmod_eq_emod _ (by norm_num), Int.fdiv_eq_ediv _ (by norm_num)]
      omega
    have e3 : ((86400 * dd + 3600 * hh + 60 * mm).fmod 3600).fdiv 60 = mm := by
      rw [Int.fmod_eq_emod _ (by norm_num), Int.fdiv_eq_ediv _ (by norm_num)]
      omega
    simp only [formatDuracao, e1, e2, e3]

/-- Witness for C4 at a concrete input: duration decomposition at 2
days, 3 hours, 45 minutes, and the dash for a zero clock. -/
theorem C4_witness :
    formatDuracao (86400 * 2 + 3600 * 3 + 60 * 45) = "2d 3h 45m" ∧
    renderAlertRowHtml 1000 { clock := some "0" } =
      .ok (.data "Não classificada" "#97AAB3" "" none "-" "Não") := by
  constructor
  · have h := (C4_duration_format).2.2.2.2 2 3 45 (by decide) (by decide) (by decide)
      (by decide) (by decide)
    rw [h]
    decide
  · have h := (C4_duration_format).2.2.2.1 1000 { clock := some "0" } (.inr rfl)
    rw [h]
    decide

/-- C7: with zero active problems both renderers emit exactly one
placeholder row (`Nenhum alerta ativo no momento`) rather than zero
rows or an exception; with a non-empty problem list they emit exactly
one data row per problem, in the order received. -/
theorem C7_placeholder_row (d : ExportData) (stats : Stats) (now : Int) :
    (∀ doc : HtmlDoc, gerar_html d stats now = .ok doc →
      (d.problems.getD [] = [] → doc.alertRows = [AlertRowHtml.placeholder]) ∧
      (d.problems.getD [] ≠ [] →
        doc.alertRows.length = (d.problems.getD []).length ∧
        AlertRowHtml.placeholder ∉ doc.alertRows ∧
        ∀ (i : Nat) (hp : i < (d.problems.getD []).length)
          (hr : i < doc.alertRows.length),
          renderAlertRowHtml now ((d.problems.getD []).get ⟨i, hp⟩) =
            .ok (doc.alertRows.get ⟨i, hr⟩))) ∧
    (∀ xdoc : ExcelDoc, gerar_excel d stats now = .ok xdoc →
      (d.problems.getD [] = [] → xdoc.alertRows = [AlertRowXl.notice]) ∧
      (d.problems.getD [] ≠ [] →
        xdoc.alertRows.length = (d.problems.getD []).length ∧
        AlertRowXl.notice ∉ xdoc.alertRows ∧
        ∀ (i : Nat) (hp : i < (d.problems.getD []).length)
          (hr : i < xdoc.alertRows.length),
          renderAlertRowXl now ((d.problems.getD []).get ⟨i, hp⟩) =
            .ok (xdoc.alertRows.get ⟨i, hr⟩))) := by
  constructor
  · intro doc h
    obtain ⟨ts, irows, trows, arows, h1, h2, h3, h4, hdoc⟩ := gerar_html_ok_elim h
    subst hdoc
    constructor
    · intro hp
      rw [hp] at h4
      simp only [List.isEmpty_nil, if_true] at h4
      cases h4
      rfl
    · intro hp
      have hne : (d.problems.getD []).isEmpty = false := by
        simpa [List.isEmpty_iff] using hp
      rw [hne] at h4
      simp only [Bool.false_eq_true, if_false] at h4
      have hf2 := mapE_ok_forall2 h4
      obtain ⟨hlen, hget⟩ := List.forall₂_iff_get.1 hf2
      refine ⟨hlen.symm, ?_, ?_⟩
      · intro hmem
        obtain ⟨p, _, hTp⟩ := forall2_mem_right hf2 _ hmem
        exact renderAlertRowHtml_ne_placeholder now p hTp
      · intro i hpi hri
        exact hget i hpi hri
  · intro xdoc h
    obtain ⟨irows, ts, trows, arows, h1, h2, h3, h4, hi, ht, ha, htop⟩ :=
      gerar_excel_ok_elim h
    constructor
    · intro hp
      rw [hp] at h4
      simp only [List.isEmpty_nil, if_true] at h4
      cases h4
      rw [ha]
    · intro hp
      have hne : (d.problems.getD []).isEmpty = false := by
        simpa [List.isEmpty_iff] using hp
      rw [hne] at h4
      simp only [Bool.false_eq_true, if_false] at h4
      have hf2 := mapE_ok_forall2 h4
      obtain ⟨hlen, hget⟩ := List.forall₂_iff_get.1 hf2
      rw [ha]
      refine ⟨hlen.symm, ?_, ?_⟩
      · intro hmem
        obtain ⟨p, _, hTp⟩ := forall2_mem_right hf2 _ hmem
        exact renderAlertRowXl_ne_notice now p hTp
      · intro i hpi hri
        exact hget i hpi hri

/-- Witness for C7 at concrete inputs: the empty problem list yields
exactly the placeholder row in both renderers. -/
theorem C7_witness :
    ∃ doc : HtmlDoc, gerar_html dEmpty (statsOf dEmpty) 0 = .ok doc ∧
      doc.alertRows = [AlertRowHtml.placeholder] ∧
      ∃ xdoc : ExcelDoc, gerar_excel dEmpty (statsOf dEmpty) 0 = .ok xdoc ∧
        xdoc.alertRows = [AlertRowXl.notice] := by
  obtain ⟨doc, hdoc⟩ : ∃ doc, gerar_html dEmpty (statsOf dEmpty) 0 = .ok doc := ⟨_, rfl⟩
  obtain ⟨xdoc, hxdoc⟩ : ∃ xdoc, gerar_excel dEmpty (statsOf dEmpty) 0 = .ok xdoc := ⟨_, rfl⟩
  refine ⟨doc, hdoc, ?_, xdoc, hxdoc, ?_⟩
  · exact ((C7_placeholder_row dEmpty (statsOf dEmpty) 0).1 doc hdoc).1 (by decide)
  · exact ((C7_placeholder_row dEmpty (statsOf dEmpty) 0).2 xdoc hxdoc).1 (by decide)

/-- C5: for a non-empty event list the frequency section groups the
events by name, counts occurrences, lists at most 20 entries ordered
by count descending with ties in first-encountered order, with each
entry's percentage being count over total events rounded to one
decimal; `[A,A,B,C,C,C]` yields `C:3 (50.0), A:2 (33.3), B:1 (16.7)`;
for an empty event list the section is omitted entirely. -/
theorem C5_frequency_ranking (d : ExportData) (stats : Stats) (now : Int) :
    (∀ doc : HtmlDoc, gerar_html d stats now = .ok doc →
      (d.events.getD [] = [] → doc.freqSection = none) ∧
      (d.events.getD [] ≠ [] →
        ∃ rows, doc.freqSection = some rows ∧
          rows.map (fun r => (r.nome, r.count)) =
            mostCommon (counter ((d.events.getD []).map (fun e => e.name.getD ""))) 20 ∧
          rows.length ≤ 20 ∧
          (∀ r ∈ rows,
            r.count = ((d.events.getD []).map (fun e => e.name.getD "")).count r.nome ∧
            r.pctStr = fmt1Frac (r.count * 100) (d.events.getD []).length) ∧
          rows.Pairwise (fun r1 r2 => r2.count < r1.count ∨
            (r1.count = r2.count ∧
              List.indexOf r1.nome ((d.events.getD []).map (fun e => e.name.getD "")) ≤
                List.indexOf r2.nome ((d.events.getD []).map (fun e => e.name.getD "")))))) ∧
    (freqRows eventsVec).map (fun r => (r.pos, r.nome, r.count, r.pctStr)) =
      [(1, "C", 3, "50.0"), (2, "A", 2, "33.3"), (3, "B", 1, "16.7")] := by
  constructor
  · intro doc h
    obtain ⟨ts, irows, trows, arows, h1, h2, h3, h4, hdoc⟩ := gerar_html_ok_elim h
    subst hdoc
    constructor
    · intro he
      simp only [he, List.isEmpty_nil, if_true]
    · intro he
      have hne : (d.events.getD []).isEmpty = false := by
        simpa [List.isEmpty_iff] using he
      have hlen : 0 < (d.events.getD []).length := List.length_pos.2 he
      obtain ⟨hmap, hle, hmem, hpw⟩ := freqRows_spec (d.events.getD [])
      refine ⟨freqRows (d.events.getD []), ?_, hmap, hle, ?_, hpw⟩
      · simp only [hne, Bool.false_eq_true, if_false]
      · intro r hr
        obtain ⟨hc, _, _, hps, _⟩ := hmem r hr
        rw [if_pos hlen] at hps
        exact ⟨hc, hps⟩
  · decide

/-- Witness for C5 at the spec's concrete vector: the section is
present with the expected ranking. -/
theorem C5_witness :
    ∃ doc : HtmlDoc, gerar_html dEventsVec (statsOf dEventsVec) 0 = .ok doc ∧
      ∃ rows, doc.freqSection = some rows ∧
        rows.map (fun r => (r.nome, r.count)) =
          mostCommon (counter (eventsVec.map (fun e => e.name.getD ""))) 20 ∧
        rows.length ≤ 20 ∧
        (∀ r ∈ rows,
          r.count = (eventsVec.map (fun e => e.name.getD "")).count r.nome ∧
          r.pctStr = fmt1Frac (r.count * 100) eventsVec.length) ∧
        rows.Pairwise (fun r1 r2 => r2.count < r1.count ∨
          (r1.count = r2.count ∧
            List.indexOf r1.nome (eventsVec.map (fun e => e.name.getD "")) ≤
              List.indexOf r2.nome (eventsVec.map (fun e => e.name.getD "")))) := by
  obtain ⟨doc, hdoc⟩ : ∃ doc, gerar_html dEventsVec (statsOf dEventsVec) 0 = .ok doc :=
    ⟨_, rfl⟩
  exact ⟨doc, hdoc,
    ((C5_frequency_ranking dEventsVec (statsOf dEventsVec) 0).1 doc hdoc).2 (by decide)⟩

/-- C6: in the styled document each bar's rendered width in the two
"items by type" / "items by value-type" charts is that group's count
over the *maximum group count of its chart* (times 100), while each
top-20-events row's percentage is its count over the *grand total of
events* (times 100) — two different denominators. -/
theorem C6_percentage_denominators (itens : List Item) (triggers : List Trigger)
    (d : ExportData) (now : Int) :
    ∀ doc : HtmlDoc, gerar_html d (gerar_estatisticas itens triggers) now = .ok doc →
      (∀ bar ∈ doc.tipoBars,
        bar.width * (listMax (doc.tipoBars.map Bar.count) : ℚ) = (bar.count : ℚ) * 100) ∧
      (∀ bar ∈ doc.valorBars,
        bar.width * (listMax (doc.valorBars.map Bar.count) : ℚ) = (bar.count : ℚ) * 100) ∧
      (∀ rows, doc.freqSection = some rows → ∀ r ∈ rows,
        r.percentual * (((d.events.getD []).length : ℚ)) = (r.count : ℚ) * 100) := by
  intro doc h
  obtain ⟨ts, irows, trows, arows, h1, h2, h3, h4, hdoc⟩ := gerar_html_ok_elim h
  subst hdoc
  refine ⟨?_, ?_, ?_⟩
  · apply tipoBars_spec
    intro p hp
    exact (mostCommon_counter_mem hp).2.2
  · apply valorBars_spec
    intro p hp
    exact (mem_counter hp).2.2
  · intro rows hrows r hr
    by_cases he : (d.events.getD []).isEmpty
    · simp only [he, if_true] at hrows
      cases hrows
    · simp only [he, if_false] at hrows
      cases hrows
      have hlen : 0 < (d.events.getD []).length := by
        rw [List.length_pos]
        intro hnil
        rw [hnil] at he
        exact he rfl
      obtain ⟨_, _, hmem, _⟩ := freqRows_spec (d.events.getD [])
      obtain ⟨_, _, _, _, hpct⟩ := hmem r hr
      rw [hpct, if_pos hlen]
      have hL : ((d.events.getD []).length : ℚ) ≠ 0 := by
        exact_mod_cast hlen.ne'
      field_simp

/-- Witness for C6 at a concrete export: three items of one type and
one of another, plus the six-event history. -/
theorem C6_witness :
    ∃ doc : HtmlDoc, gerar_html dChart (gerar_estatisticas chartItens []) 0 = .ok doc ∧
      ((∀ bar ∈ doc.tipoBars,
        bar.width * (listMax (doc.tipoBars.map Bar.count) : ℚ) = (bar.count : ℚ) * 100) ∧
      (∀ bar ∈ doc.valorBars,
        bar.width * (listMax (doc.valorBars.map Bar.count) : ℚ) = (bar.count : ℚ) * 100) ∧
      (∀ rows, doc.freqSection = some rows → ∀ r ∈ rows,
        r.percentual * (((dChart.events.getD []).length : ℚ)) = (r.count : ℚ) * 100)) := by
  obtain ⟨doc, hdoc⟩ : ∃ doc, gerar_html dChart (gerar_estatisticas chartItens []) 0 = .ok doc :=
    ⟨_, rfl⟩
  exact ⟨doc, hdoc, C6_percentage_denominators chartItens [] dChart 0 doc hdoc⟩

/-- C10: the "items by collection type" chart shows only the 8 most
frequent buckets — when the statistics table has more than 8 type
buckets some bucket label is absent from the chart — while the "items
by value type" chart shows every bucket with no cap. -/
theorem C10_top8_cap (itens : List Item) (triggers : List Trigger)
    (d : ExportData) (now : Int) :
    ∀ doc : HtmlDoc, gerar_html d (gerar_estatisticas itens triggers) now = .ok doc →
      doc.tipoBars.length ≤ 8 ∧
      (doc.valorBars.map Bar.label).Perm
        ((gerar_estatisticas itens triggers).itens.por_valor.map Prod.fst) ∧
      (8 < (gerar_estatisticas itens triggers).itens.por_tipo.length →
        ∃ lab ∈ (gerar_estatisticas itens triggers).itens.por_tipo.map Prod.fst,
          lab ∉ doc.tipoBars.map Bar.label) := by
  intro doc h
  obtain ⟨ts, irows, trows, arows, h1, h2, h3, h4, hdoc⟩ := gerar_html_ok_elim h
  subst hdoc
  refine ⟨?_, ?_, ?_⟩
  · simp only [tipoBarsOf, List.length_map]
    exact mostCommon_length_le _ _
  · have h1 : (valorBarsOf (gerar_estatisticas itens triggers).itens.por_valor).map
        Bar.label =
        (mostCommonAll (gerar_estatisticas itens triggers).itens.por_valor).map
          Prod.fst := by
      simp only [valorBarsOf, List.map_map]
      rfl
    rw [h1]
    exact mostCommonAll_labels_perm _
  · intro hgt
    have hlab : (tipoBarsOf (gerar_estatisticas itens triggers).itens.por_tipo).map
        Bar.label =
        (mostCommon (gerar_estatisticas itens triggers).itens.por_tipo 8).map
          Prod.fst := by
      simp only [tipoBarsOf, List.map_map]
      rfl
    rw [hlab]
    exact mostCommon_missing_label (itens.map itemTipoLabelStats) 8 hgt

/-- Witness for C10 at a concrete export with nine distinct type
buckets: the chart caps at 8 and misses one counted bucket. -/
theorem C10_witness :
    ∃ doc : HtmlDoc, gerar_html dNine (gerar_estatisticas nineTypeItens []) 0 = .ok doc ∧
      doc.tipoBars.length ≤ 8 ∧
      ∃ lab ∈ (gerar_estatisticas nineTypeItens []).itens.por_tipo.map Prod.fst,
        lab ∉ doc.tipoBars.map Bar.label := by
  obtain ⟨doc, hdoc⟩ : ∃ doc, gerar_html dNine (gerar_estatisticas nineTypeItens []) 0 = .ok doc :=
    ⟨_, rfl⟩
  obtain ⟨hlen, _, hmiss⟩ := C10_top8_cap nineTypeItens [] dNine 0 doc hdoc
  exact ⟨doc, hdoc, hlen, hmiss (by decide)⟩

/-- C9 counterexample: the two renderers disagree on the status label
of a record whose status code is outside the known code table.  For an
item with status `"2"` the document renderer shows `Desconhecido`
(`STATUS_MAP.get(..., ("Desconhecido", ...))`), while the spreadsheet
renderer shows `Desabilitado` (`"Ativo" if status == "0" else
"Desabilitado"`). -/
theorem C9_counterexample :
    (gerar_html dStatus2 (statsOf dStatus2) 0).map
      (fun doc => doc.itemRows.map ItemRowHtml.statusLabel) = .ok ["Desconhecido"] ∧
    (gerar_excel dStatus2 (statsOf dStatus2) 0).map
      (fun xdoc => xdoc.itemRows.map ItemRowXl.status) = .ok ["Desabilitado"] ∧
    ("Desconhecido" : String) ≠ "Desabilitado" := by
  refine ⟨by decide, by decide, by decide⟩

/-- C9 as amended: the spreadsheet renderer produces the same derived
per-row values as the styled-document renderer for priority/severity
labels, problem fields and durations, and item type labels — and the
same status label whenever the status code is one of the known codes
`"0"`/`"1"`; for an unknown or absent status code the two renderers
disagree (see the counterexample). -/
theorem C9_derived_values_amended :
    (∀ t : Trigger, (renderTriggerRowHtml t).map (fun r => r.prLabel) =
      (renderTriggerRowXl t).map (fun r => r.severidade)) ∧
    (∀ (now : Int) (p : Problem), (renderAlertRowHtml now p).map alertHtmlFields =
      (renderAlertRowXl now p).map alertXlFields) ∧
    (∀ i : Item, i.status = some "0" ∨ i.status = some "1" →
      (renderItemRowHtml i).map (fun r => r.statusLabel) =
        (renderItemRowXl i).map (fun r => r.status)) ∧
    (∀ t : Trigger, t.status = some "0" ∨ t.status = some "1" →
      (renderTriggerRowHtml t).map (fun r => r.statusLabel) =
        (renderTriggerRowXl t).map (fun r => r.status)) ∧
    (∀ i : Item, (renderItemRowHtml i).map (fun r => (r.tipo, r.valorTipo)) =
      (renderItemRowXl i).map (fun r => (r.tipo, r.tipoValor))) := by
  have key : ∀ (l : List Tag) (motive : Prop),
      (∀ e, mapE renderTagHtml l = .error e → mapE excelTagStr l = .error e → motive) →
      (∀ p1 p2, mapE renderTagHtml l = .ok p1 → mapE excelTagStr l = .ok p2 → motive) →
      motive := by
    intro l motive herrCase hokCase
    have herr := errE_item_tagparts l
    cases hH : mapE renderTagHtml l with
    | error e =>
      cases hX : mapE excelTagStr l with
      | error e2 =>
        rw [hH, hX] at herr
        cases herr
        exact herrCase e hH hX
      | ok p2 => rw [hH, hX] at herr; cases herr
    | ok p1 =>
      cases hX : mapE excelTagStr l with
      | error e2 => rw [hH, hX] at herr; cases herr
      | ok p2 => exact hokCase p1 p2 hH hX
  refine ⟨?_, ?_, ?_, ?_, ?_⟩
  · intro t
    refine key (t.tags.getD []) _ ?_ ?_
    · intro e hH hX
      rw [renderTriggerRowHtml, hH, renderTriggerRowXl, hX]
      rfl
    · intro p1 p2 hH hX
      rw [renderTriggerRowHtml, hH, renderTriggerRowXl, hX]
      rfl
  · intro now p
    cases hc : problemClock p with
    | none => rw [renderAlertRowHtml, renderAlertRowXl, hc]; rfl
    | some clock => rw [renderAlertRowHtml, renderAlertRowXl, hc]; rfl
  · intro i hst
    refine key (i.tags.getD []) _ ?_ ?_
    · intro e hH hX
      rw [renderItemRowHtml, hH, renderItemRowXl, hX]
      rfl
    · intro p1 p2 hH hX
      rw [renderItemRowHtml, hH, renderItemRowXl, hX]
      rcases hst with h | h <;> rw [h] <;> rfl
  · intro t hst
    refine key (t.tags.getD []) _ ?_ ?_
    · intro e hH hX
      rw [renderTriggerRowHtml, hH, renderTriggerRowXl, hX]
      rfl
    · intro p1 p2 hH hX
      rw [renderTriggerRowHtml, hH, renderTriggerRowXl, hX]
      rcases hst with h | h <;> rw [h] <;> rfl
  · intro i
    refine key (i.tags.getD []) _ ?_ ?_
    · intro e hH hX
      rw [renderItemRowHtml, hH, renderItemRowXl, hX]
      rfl
    · intro p1 p2 hH hX
      rw [renderItemRowHtml, hH, renderItemRowXl, hX]
      rfl

/-- Witness for C9 (amended) at concrete records with known status
codes. -/
theorem C9_witness :
    (renderItemRowHtml { name := some "i", status := some "0" }).map
      (fun r => r.statusLabel) =
      (renderItemRowXl { name := some "i", status := some "0" }).map
        (fun r => r.status) ∧
    (renderTriggerRowHtml { status := some "1" }).map (fun r => r.statusLabel) =
      (renderTriggerRowXl { status := some "1" }).map (fun r => r.status) :=
  ⟨C9_derived_values_amended.2.2.1 _ (.inl rfl),
   C9_derived_values_amended.2.2.2.1 _ (.inr rfl)⟩

end Zbx
